import Mathlib

/-!
# Verification of the repoagent core: response codec and GraphQL fetch layer

Shallow embedding of `src/response_models.py` and `src/graphql_client.py`.
Python strings are modelled as `List Char`; the Python string methods used by
the source (`splitlines`, `strip`, `lower`, `startswith`, `split`, `lstrip`,
`join`, substring `in`) are defined below, faithful to CPython semantics on
the character sets that can actually occur (ASCII plus the emoji glyphs used
by the codec; the rarer Unicode whitespace code points that CPython also
treats as spaces or line breaks are noted where they are elided).
-/

namespace RepoAgent

/-- Python string, modelled as its list of characters. -/
abbrev Str := List Char

/-- Characters on which CPython `str.splitlines` breaks a line (the ASCII and
Latin-1 ones plus the two Unicode separators; `\r\n` is treated as a single
break by `pySplitlines` below). -/
def isLineBreak (c : Char) : Bool :=
  c = '\n' || c = '\r' || c = '\x0b' || c = '\x0c' ||
  c = '\x1c' || c = '\x1d' || c = '\x1e' || c = '\x85' ||
  c = '\u2028' || c = '\u2029'

/-- Whitespace stripped by CPython `str.strip()` (ASCII and Latin-1 whitespace;
line-break characters never reach `strip` because every string stripped by the
source first went through `splitlines`). -/
def pyIsSpace (c : Char) : Bool :=
  c = ' ' || c = '\t' || c = '\n' || c = '\r' || c = '\x0b' || c = '\x0c' ||
  c = '\x1c' || c = '\x1d' || c = '\x1e' || c = '\x1f' || c = '\x85' || c = '\xa0'

/-- Worker for `pySplitlines`: `acc` holds the current line reversed; a
`\r\n` pair counts as one break. -/
def pySplitlinesGo : List Char → List Char → List Str
  | [], [] => []
  | [], acc => [acc.reverse]
  | '\r' :: '\n' :: rest, acc => acc.reverse :: pySplitlinesGo rest []
  | c :: rest, acc =>
    if isLineBreak c then acc.reverse :: pySplitlinesGo rest []
    else pySplitlinesGo rest (c :: acc)

/-- CPython `str.splitlines()`. -/
def pySplitlines (s : Str) : List Str := pySplitlinesGo s []

/-- CPython `str.lstrip()`. -/
def pyLstrip (s : Str) : Str := s.dropWhile pyIsSpace

/-- CPython `str.rstrip()`. -/
def pyRstrip (s : Str) : Str := (s.reverse.dropWhile pyIsSpace).reverse

/-- CPython `str.strip()`. -/
def pyStrip (s : Str) : Str := pyRstrip (pyLstrip s)

/-- CPython `str.lower()` (ASCII case mapping; the emoji glyphs and the other
characters appearing in the source are fixed points of `lower`). -/
def pyLower (s : Str) : Str := s.map Char.toLower

/-- `s.split(sep, 1)[-1]`: everything after the first occurrence of `sep`,
or the whole string when `sep` does not occur. -/
def afterFirst (sep : Char) (s : Str) : Str :=
  match s.dropWhile (fun c => !(c = sep : Bool)) with
  | [] => s
  | _ :: tail => tail

/-- `s.split(sep)[-1]`: everything after the last occurrence of `sep`,
or the whole string when `sep` does not occur. -/
def afterLast (sep : Char) (s : Str) : Str :=
  (s.reverse.takeWhile (fun c => !(c = sep : Bool))).reverse

/-- CPython `sub in s` substring test. -/
def containsSub (needle : Str) : Str → Bool
  | [] => needle.isEmpty
  | c :: rest => needle.isPrefixOf (c :: rest) || containsSub needle rest

/-- CPython `s.lstrip(chars)` for an explicit character set. -/
def pyLstripChars (chars : List Char) (s : Str) : Str :=
  s.dropWhile (fun c => chars.contains c)

/-- CPython `sep.join(parts)`. -/
def pyJoin (sep : Str) (parts : List Str) : Str := List.intercalate sep parts

/-- CPython `s.startswith(pre)`. -/
def pyStartswith (pre s : Str) : Bool := pre.isPrefixOf s

/-!
## `src/response_models.py`

`UserStoryRefactored.acceptance_criteria` is `Optional[List[str]]` in the
source, with default `None` in `__init__` (`from_dict` and `from_markdown`
always store an actual list), so it is modelled as `Option (List Str)`.
-/

/-- `UserStoryRefactored` (response_models.py lines 3-10). -/
structure UserStoryRefactored where
  title : Str
  description : Str
  acceptance_criteria : Option (List Str)
deriving DecidableEq

/-- `UserStoryRefactored()` with all defaults: `title=""`, `description=""`,
`acceptance_criteria=None`. -/
def UserStoryRefactored.empty : UserStoryRefactored := ⟨[], [], none⟩

/-- The dict `refactored_dict` built by `UserStoryEvalResponse.from_text`:
keys `title`, `description`, `acceptance_criteria`, each possibly absent. -/
structure RefDict where
  title : Option Str
  description : Option Str
  acceptance_criteria : Option (List Str)
deriving DecidableEq

/-- The empty dict `{}`. -/
def RefDict.empty : RefDict := ⟨none, none, none⟩

/-- `UserStoryRefactored.from_dict` (lines 12-18): `data.get(key, default)`. -/
def UserStoryRefactored.from_dict (data : RefDict) : UserStoryRefactored :=
  ⟨data.title.getD [], data.description.getD [], some (data.acceptance_criteria.getD [])⟩

/-- Loop state of `UserStoryRefactored.from_markdown` (lines 26-30): the
`title`/`description`/`acceptance_criteria` accumulators plus the `section`
variable, which is either `None` or `"acceptance_criteria"` (a `Bool` here). -/
structure RefMdState where
  title : Str
  description : Str
  acceptance_criteria : List Str
  inAcSection : Bool
deriving DecidableEq

/-- One iteration of the line loop of `UserStoryRefactored.from_markdown`
(lines 31-42). -/
def refMdStep (st : RefMdState) (line : Str) : RefMdState :=
  let l := pyLower (pyStrip line)
  if pyStartswith "**title**:".toList l then
    { st with title := pyStrip (afterFirst ':' l) }
  else if pyStartswith "**description**:".toList l then
    { st with description := pyStrip (afterFirst ':' l) }
  else if pyStartswith "**acceptance criteria**:".toList l then
    { st with inAcSection := true }
  else if st.inAcSection && pyStartswith "-".toList l then
    { st with acceptance_criteria :=
        st.acceptance_criteria ++ [pyStrip (pyLstripChars ['-', ' '] l)] }
  else if st.inAcSection && !(pyStartswith "-".toList l) then
    { st with inAcSection := false }
  else st

/-- `UserStoryRefactored.from_markdown` (lines 20-43). -/
def UserStoryRefactored.from_markdown (markdown : Str) : UserStoryRefactored :=
  let st := (pySplitlines markdown).foldl refMdStep ⟨[], [], [], false⟩
  ⟨st.title, st.description, some st.acceptance_criteria⟩

/-- Python truthiness of `Optional[List[str]]`: `None` and `[]` are falsy. -/
def optListTruthy : Option (List Str) → Bool
  | some (_ :: _) => true
  | _ => false

/-- `UserStoryRefactored.body_markdown` (lines 57-68). -/
def UserStoryRefactored.body_markdown (r : UserStoryRefactored) : Str :=
  let lines : List Str :=
    (if r.description ≠ [] then
      ["**Description**: ".toList ++ r.description ++ "\n".toList] else []) ++
    (if optListTruthy r.acceptance_criteria then
      "**Acceptance Criteria**:".toList ::
        (r.acceptance_criteria.getD []).map (fun c => "- ".toList ++ c)
     else [])
  pyJoin "\n".toList lines

/-- `UserStoryRefactored.to_markdown` (lines 45-55). -/
def UserStoryRefactored.to_markdown (r : UserStoryRefactored) : Str :=
  let lines : List Str :=
    (if r.title ≠ [] then ["**Title**: ".toList ++ r.title ++ "\n".toList] else []) ++
    (if r.body_markdown ≠ [] then [r.body_markdown] else [])
  pyJoin "\n".toList lines

/-- `UserStoryEvalResponse` (lines 70-96). The `refactored` parameter of
`__init__` is optional, but the constructor stores
`refactored or UserStoryRefactored()` (line 96) and a `UserStoryRefactored`
instance is always truthy, so the stored field is never `None`; it is
modelled as a plain (non-optional) field, with `mkResponse` playing the role
of `__init__`. -/
structure UserStoryEvalResponse where
  summary : Str
  title_complete : Bool
  description_complete : Bool
  acceptance_criteria_complete : Bool
  importance : Str
  acceptance_criteria_evaluation : Str
  labels : List Str
  ready_to_work : Bool
  base_story_not_clear : Bool
  refactored : UserStoryRefactored
deriving DecidableEq

/-- `UserStoryEvalResponse.__init__` (lines 74-96): the `refactored`
argument may be `None`, in which case `UserStoryRefactored()` is stored. -/
def mkResponse (summary : Str) (tc dc acc : Bool) (importance ace : Str)
    (labels : List Str) (rtw bsnc : Bool)
    (refactored : Option UserStoryRefactored) : UserStoryEvalResponse :=
  ⟨summary, tc, dc, acc, importance, ace, labels, rtw, bsnc,
    refactored.getD UserStoryRefactored.empty⟩

/-- `extract_bool` in `from_text` (lines 104-105):
`line.strip().split(":")[-1].strip().lower() == "true"`. -/
def extract_bool (line : Str) : Bool :=
  pyLower (pyStrip (afterLast ':' (pyStrip line))) == "true".toList

/-- `extract_yesno` in `from_text` (lines 106-107):
`line.strip().split(":")[-1].strip().lower() == "yes"`. -/
def extract_yesno (line : Str) : Bool :=
  pyLower (pyStrip (afterLast ':' (pyStrip line))) == "yes".toList

/-- `[l.strip() for l in rest.split(",") if l.strip()]` (line 134 / 197). -/
def splitLabels (rest : Str) : List Str :=
  ((List.splitOn ',' rest).map pyStrip).filter (fun l => l ≠ [])

/-- Loop state of `UserStoryEvalResponse.from_text` (lines 108-119). -/
structure TextState where
  summary : Str
  title_complete : Bool
  description_complete : Bool
  acceptance_criteria_complete : Bool
  importance : Str
  acceptance_criteria_evaluation : Str
  labels : List Str
  ready_to_work : Bool
  base_story_not_clear : Bool
  refactored_dict : RefDict
  inRefactoredSection : Bool
deriving DecidableEq

/-- The state before the `from_text` loop. -/
def TextState.init : TextState :=
  ⟨[], false, false, false, [], [], [], false, false, RefDict.empty, false⟩

/-- One iteration of the line loop of `UserStoryEvalResponse.from_text`
(lines 120-150). -/
def textStep (st : TextState) (line : Str) : TextState :=
  if pyStartswith "Summary:".toList line then
    { st with summary := pyStrip (afterFirst ':' line) }
  else if pyStartswith "- Title:".toList (pyStrip line) then
    { st with title_complete := extract_yesno line }
  else if pyStartswith "- Description:".toList (pyStrip line) then
    { st with description_complete := extract_yesno line }
  else if pyStartswith "- Acceptance Criteria:".toList (pyStrip line) then
    { st with acceptance_criteria_complete := extract_yesno line }
  else if pyStartswith "Importance:".toList line then
    { st with importance := pyStrip (afterFirst ':' line) }
  else if pyStartswith "Acceptance Criteria Evaluation:".toList line then
    { st with acceptance_criteria_evaluation := pyStrip (afterFirst ':' line) }
  else if pyStartswith "Labels:".toList line then
    { st with labels := splitLabels (afterFirst ':' line) }
  else if pyStartswith "Ready to Work:".toList line then
    { st with ready_to_work := extract_bool line }
  else if pyStartswith "Base Story Not Clear:".toList line then
    { st with base_story_not_clear := extract_bool line }
  else if pyStartswith "### Refactored Story".toList line then
    { st with inRefactoredSection := true }
  else if st.inRefactoredSection then
    if pyStartswith "Title:".toList line then
      { st with refactored_dict := { st.refactored_dict with
          title := some (pyStrip (afterFirst ':' line)) } }
    else if pyStartswith "Description:".toList line then
      { st with refactored_dict := { st.refactored_dict with
          description := some (pyStrip (afterFirst ':' line)) } }
    else if pyStartswith "Acceptance Criteria:".toList line then
      { st with refactored_dict := { st.refactored_dict with
          acceptance_criteria := some [] } }
    else if pyStartswith "-".toList line then
      match st.refactored_dict.acceptance_criteria with
      | some acs =>
        { st with refactored_dict := { st.refactored_dict with
            acceptance_criteria := some (acs ++ [pyStrip (pyLstripChars ['-', ' '] line)]) } }
      | none => st
    else st
  else st

/-- `UserStoryEvalResponse.from_text` (lines 98-162). -/
def UserStoryEvalResponse.from_text (text : Str) : UserStoryEvalResponse :=
  let st := (pySplitlines text).foldl textStep TextState.init
  mkResponse st.summary st.title_complete st.description_complete
    st.acceptance_criteria_complete st.importance st.acceptance_criteria_evaluation
    st.labels st.ready_to_work st.base_story_not_clear
    (some (UserStoryRefactored.from_dict st.refactored_dict))

/-- `emoji_to_bool` in `from_markdown` (lines 169-170). -/
def emojiToBool (val : Str) : Bool := pyStrip val == "✅".toList

/-- Loop state of `UserStoryEvalResponse.from_markdown` (lines 171-182). -/
structure EvalMdState where
  summary : Str
  title_complete : Bool
  description_complete : Bool
  acceptance_criteria_complete : Bool
  importance : Str
  acceptance_criteria_evaluation : Str
  labels : List Str
  ready_to_work : Bool
  base_story_not_clear : Bool
  refactored_md : List Str
  in_refactored : Bool
deriving DecidableEq

/-- The state before the `from_markdown` loop. -/
def EvalMdState.init : EvalMdState :=
  ⟨[], false, false, false, [], [], [], false, false, [], false⟩

/-- One iteration of the line loop of `UserStoryEvalResponse.from_markdown`
(lines 183-207). -/
def evalMdStep (st : EvalMdState) (line : Str) : EvalMdState :=
  if pyStartswith "**Summary**:".toList line then
    { st with summary := pyStrip (afterFirst ':' line) }
  else if pyStartswith "- Title:".toList (pyStrip line) then
    { st with title_complete := emojiToBool (pyStrip (afterFirst ':' line)) }
  else if pyStartswith "- Description:".toList (pyStrip line) then
    { st with description_complete := emojiToBool (pyStrip (afterFirst ':' line)) }
  else if pyStartswith "- Acceptance Criteria:".toList (pyStrip line) then
    { st with acceptance_criteria_complete := emojiToBool (pyStrip (afterFirst ':' line)) }
  else if pyStartswith "**Importance**:".toList line then
    { st with importance := pyStrip (afterFirst ':' line) }
  else if pyStartswith "**Acceptance Criteria Evaluation**:".toList line then
    { st with acceptance_criteria_evaluation := pyStrip (afterFirst ':' line) }
  else if pyStartswith "**Suggested Labels**:".toList line then
    { st with labels := splitLabels (afterFirst ':' line) }
  else if pyStartswith "**Ready to Work**:".toList line then
    { st with ready_to_work := emojiToBool (pyStrip (afterFirst ':' line)) }
  else if containsSub "Base Story Not Clear:".toList line then
    { st with base_story_not_clear := emojiToBool (pyStrip (afterFirst ':' line)) }
  else if containsSub "could not be provided because the original story is unclear".toList line then
    { st with base_story_not_clear := true }
  else if pyStartswith "### Refactored Story".toList (pyStrip line) then
    { st with in_refactored := true }
  else if st.in_refactored then
    { st with refactored_md := st.refactored_md ++ [line] }
  else st

/-- `UserStoryEvalResponse.from_markdown` (lines 164-220). -/
def UserStoryEvalResponse.from_markdown (markdown : Str) : UserStoryEvalResponse :=
  let st := (pySplitlines markdown).foldl evalMdStep EvalMdState.init
  let refactored : Option UserStoryRefactored :=
    if st.refactored_md ≠ [] then
      some (UserStoryRefactored.from_markdown (pyJoin "\n".toList st.refactored_md))
    else none
  mkResponse st.summary st.title_complete st.description_complete
    st.acceptance_criteria_complete st.importance st.acceptance_criteria_evaluation
    st.labels st.ready_to_work st.base_story_not_clear refactored

/-- `yn_emoji` in `to_markdown` (lines 223-224). -/
def ynEmoji (val : Bool) : Str := if val then "✅".toList else "❌".toList

/-- The fixed note emitted when `not ready_to_work and base_story_not_clear`
(lines 237-240). -/
def unclearNote : Str :=
  ("\n**❌ Refactored Story could not be provided because the original story " ++
   "is unclear or lacks meaningful value. Please rewrite the title and " ++
   "description to clearly explain the story\x27s purpose and value.**").toList

/-- `UserStoryEvalResponse.to_markdown` (lines 222-245). In the source the
second condition is `self.refactored and (not ready and not unclear)`; the
`refactored` attribute is a `UserStoryRefactored` instance after `__init__`
and instances are always truthy, so only the boolean conjunction remains. -/
def UserStoryEvalResponse.to_markdown (r : UserStoryEvalResponse) : Str :=
  let lines : List Str := [
    "### 🤖 **AI-enhanced Evaluation**".toList,
    "**Summary**: ".toList ++ r.summary,
    "**Completeness**:".toList,
    " - Title: ".toList ++ ynEmoji r.title_complete ++ "\n".toList,
    " - Description: ".toList ++ ynEmoji r.description_complete ++ "\n".toList,
    " - Acceptance Criteria: ".toList ++ ynEmoji r.acceptance_criteria_complete ++ "\n\n".toList,
    "**Importance**: ".toList ++ r.importance ++ "\n\n".toList,
    "**Acceptance Criteria Evaluation**: ".toList ++ r.acceptance_criteria_evaluation ++ "\n\n".toList,
    "**Suggested Labels**: ".toList ++ pyJoin ", ".toList r.labels ++ "\n\n".toList,
    "**Ready to Work**: ".toList ++ ynEmoji r.ready_to_work ++ "\n".toList]
  let lines := lines ++
    (if !r.ready_to_work && r.base_story_not_clear then [unclearNote] else [])
  let lines := lines ++
    (if !r.ready_to_work && !r.base_story_not_clear then
      ["\n### Refactored Story".toList,
       r.refactored.to_markdown,
       "\n Reply \"/apply\" to apply these updates.\n".toList]
     else [])
  pyJoin "\n".toList lines

/-!
## `src/graphql_client.py`

The PyGithub client is injected as an oracle: `outcome attempt` is what the
`graphql_query` call raises or returns on the given (0-based) attempt of the
retry loop, and for the paginator `fetch pageSize after` is what
`graphql_fetch_issue` yields for a page request. The blocking
`time.sleep(backoff)` calls of `execute` are recorded as the list of slept
durations, and `sys.exit(1)` is the `fatal` result. Timestamps are abstract
instants (`Time := Int`); `datetime.fromisoformat` is an injected partial
parser.
-/

/-- Abstract instant standing for a `datetime`. -/
abbrev Time := Int

/-- One behaviour of `self._github.requester.graphql_query` (line 85): it
returns a data dict — with payload abstracted to a tag and the optional
`errors` key as the list of the error `type` strings (`error.get("type", "")`
makes a missing type the empty string) — or raises. -/
inductive QueryOutcome where
  | ok (payload : Nat) (errors : Option (List Str))
  | githubExc (status : Int)
  | unexpectedExc
deriving DecidableEq

/-- Result of `GraphQLExecutor.execute`: either the returned data (an `ok`
outcome whose `errors` key was absent) or process termination via
`sys.exit(1)`; both record the backoff sleeps performed and the number of
`graphql_query` calls made. -/
inductive ExecResult where
  | returned (payload : Nat) (sleeps : List Nat) (queries : Nat)
  | fatal (sleeps : List Nat) (queries : Nat)
deriving DecidableEq

/-- The `for error in errors` loop (lines 91-101): for each retryable-typed
error it either sleeps (`attempt < max_retries - 1`) and `continue`s — which
continues this inner loop, not the attempt loop — or exits at once; after the
loop line 105 exits.  The result is the list of sleeps performed before the
inevitable `sys.exit(1)`. -/
def errorLoopSleeps (base attempt maxRetries : Nat) : List Str → List Nat
  | [] => []
  | e :: rest =>
    if e == "RATE_LIMITED".toList || e == "INTERNAL".toList then
      if attempt < maxRetries - 1 then
        (base * 2 ^ attempt) :: errorLoopSleeps base attempt maxRetries rest
      else []
    else errorLoopSleeps base attempt maxRetries rest

/-- The body of `GraphQLExecutor.execute` (lines 82-144): `for attempt in
range(max_retries)`, the remaining attempt indices carried as a list, with
the classification of lines 88-140.  When the attempt list is exhausted the
`continue`d loop falls through to lines 142-144 (`sys.exit(1)`). -/
def executeLoop (outcome : Nat → QueryOutcome) (maxRetries base : Nat) :
    List Nat → List Nat → Nat → ExecResult
  | [], sleeps, queries => .fatal sleeps queries
  | attempt :: rest, sleeps, queries =>
    match outcome attempt with
    | .ok payload none => .returned payload sleeps (queries + 1)
    | .ok _ (some errs) =>
      .fatal (sleeps ++ errorLoopSleeps base attempt maxRetries errs) (queries + 1)
    | .githubExc status =>
      if status = 401 ∨ status = 403 then .fatal sleeps (queries + 1)
      else if status = 502 ∨ status = 503 ∨ status = 504 ∨ status = -1 then
        if attempt < maxRetries - 1 then
          executeLoop outcome maxRetries base rest
            (sleeps ++ [base * 2 ^ attempt]) (queries + 1)
        else .fatal sleeps (queries + 1)
      else .fatal sleeps (queries + 1)
    | .unexpectedExc =>
      if attempt < 1 then
        executeLoop outcome maxRetries base rest (sleeps ++ [base]) (queries + 1)
      else .fatal sleeps (queries + 1)

/-- `GraphQLExecutor.execute` with the constructor's `_max_retries = 3` and
`_base_backoff = 2` (lines 65-66): the attempt loop runs over
`range(3) = [0, 1, 2]`. -/
def GraphQLExecutor.execute (outcome : Nat → QueryOutcome) : ExecResult :=
  executeLoop outcome 3 2 [0, 1, 2] [] 0

/-- A comment node of the GraphQL response (`nodes { ... }`), each field as
`dict.get` sees it.  `author` is `None` or a dict whose `login` may itself be
absent, hence the nested `Option`. -/
structure RawComment where
  id : Option Str
  databaseId : Option Int
  body : Option Str
  author : Option (Option Str)
  createdAt : Option Str
  updatedAt : Option Str
deriving DecidableEq

/-- `pageInfo { hasNextPage endCursor }` as a dict (possibly missing keys). -/
structure RawPageInfo where
  hasNextPage : Option Bool
  endCursor : Option Str
deriving DecidableEq

/-- The `comments` connection dict: `nodes` (a list whose entries can be
null) and `pageInfo`.  `issue.get("comments", {})` supplies the default. -/
structure RawComments where
  pageInfo : RawPageInfo
  nodes : List (Option RawComment)
deriving DecidableEq

/-- The `issue` dict.  `number` is accessed with `issue_data["number"]`
(required); the rest through `.get`.  `labels` stands for
`issue.get("labels", {}).get("nodes", [])`, entries possibly null, carrying
the `name` field. -/
structure RawIssue where
  number : Int
  title : Option Str
  body : Option Str
  state : Option Str
  author : Option (Option Str)
  labels : Option (List (Option Str))
  comments : Option RawComments
deriving DecidableEq

/-- The `repository` dict. -/
structure RawRepository where
  issue : Option RawIssue
deriving DecidableEq

/-- The executor's response: `data.get("data", {}).get("repository")`. -/
structure RawResponse where
  data : Option RawRepository
deriving DecidableEq

/-- `CommentNode` (graphql_client.py lines 18-27). -/
structure CommentNode where
  id : Str
  db_id : Option Int
  body : Str
  author : Option Str
  created_at : Time
  updated_at : Time
deriving DecidableEq

/-- `IssueSnapshot` (lines 30-47). -/
structure IssueSnapshot where
  number : Int
  title : Str
  body : Str
  state : Str
  author : Option Str
  labels : List Str
  comments : List CommentNode
  fetched_pages : Nat
  had_truncated : Bool
deriving DecidableEq

/-- `created_at_str.replace("Z", "+00:00")` (line 255). -/
def replaceZ : Str → Str
  | [] => []
  | 'Z' :: rest => '+' :: '0' :: '0' :: ':' :: '0' :: '0' :: replaceZ rest
  | c :: rest => c :: replaceZ rest

/-- Lines 247-270: build one `CommentNode` from a non-null raw node.
`parseIso` stands for `datetime.fromisoformat` (`none` = `ValueError`).  The
`try` block assigns `created_at` before `updated_at`, so a parse failure of
either string sends *both* fields to `datetime.now()` (lines 254-260). -/
def parseCommentNode (parseIso : Str → Option Time) (now : Time)
    (node : RawComment) : CommentNode :=
  let times : Time × Time :=
    match parseIso (replaceZ (node.createdAt.getD [])),
        parseIso (replaceZ (node.updatedAt.getD [])) with
    | some c, some u => (c, u)
    | _, _ => (now, now)
  ⟨node.id.getD [], node.databaseId, node.body.getD [], node.author.getD none,
    times.1, times.2⟩

/-- The response-parsing half of `graphql_fetch_issue` (lines 211-288),
applied to what `executor.execute` returned.  `.error ()` is the
`sys.exit(1)` of lines 214-222 (repository or issue not found). -/
def graphql_parse_issue (parseIso : Str → Option Time) (now : Time)
    (after : Option Str) (resp : RawResponse) :
    Except Unit (IssueSnapshot × RawPageInfo) :=
  match resp.data with
  | none => .error ()
  | some repoData =>
    match repoData.issue with
    | none => .error ()
    | some issueData =>
      let labels := (issueData.labels.getD []).filterMap id
      let commentsData := issueData.comments.getD ⟨⟨none, none⟩, []⟩
      let comments := commentsData.nodes.filterMap
        (fun n => n.map (parseCommentNode parseIso now))
      let pageInfo := commentsData.pageInfo
      .ok (⟨issueData.number, issueData.title.getD [], issueData.body.getD [],
        issueData.state.getD "OPEN".toList, issueData.author.getD none, labels,
        comments, if after.isNone then 1 else 0, pageInfo.hasNextPage.getD false⟩,
        pageInfo)

/-- `any(disabled_marker in comment.body for comment in cs)` (line 326). -/
def scanDisabled (marker : Str) (cs : List CommentNode) : Bool :=
  cs.any (fun c => containsSub marker c.body)

/-- `any(ai_comment_marker.lower() in comment.body.lower() for comment in cs)`
(line 327). -/
def scanAi (marker : Str) (cs : List CommentNode) : Bool :=
  cs.any (fun c => containsSub (pyLower marker) (pyLower c.body))

/-- CPython truthiness of the `after_cursor` variable of
`paginate_issue_comments`: `None` is falsy and so is the empty string
(graphql_client.py line 342). -/
def cursorTruthy : Option Str → Bool
  | none => false
  | some [] => false
  | some (_ :: _) => true

/-- The `while after_cursor and (not found_disabled or not found_ai_comment)`
loop of `paginate_issue_comments` (lines 342-371).  The cursor test follows
CPython truthiness: the loop exits both when `endCursor` was `None` (`none`
here) and when it was the empty string (`some []`).  `fetch pageSize after`
is what `graphql_fetch_issue` returns; `calls` counts those calls.  `fuel`
bounds the recursion (the real loop is bounded by the server's pages);
`.error ()` marks fuel exhaustion with the loop still running and never
occurs in the statements proved below. -/
def paginateLoop (fetch : Nat → Option Str → IssueSnapshot × RawPageInfo) :
    Nat → IssueSnapshot → Str → Str → Bool → Bool → Option Str → Nat → Nat →
    Except Unit (IssueSnapshot × Nat × Option Str)
  | _, snapshot, _, _, _, _, none, _, calls => .ok (snapshot, calls, none)
  | _, snapshot, _, _, _, _, some [], _, calls => .ok (snapshot, calls, some [])
  | 0, snapshot, _, _, fd, fai, some (c :: cr), _, calls =>
    if fd && fai then .ok (snapshot, calls, some (c :: cr))
    else .error ()
  | fuel + 1, snapshot, dm, am, fd, fai, some (c :: cr), pageNum, calls =>
    if fd && fai then .ok (snapshot, calls, some (c :: cr))
    else
      let next := fetch 100 (some (c :: cr))
      let snapshot' : IssueSnapshot := { snapshot with
        comments := snapshot.comments ++ (next.1).comments,
        fetched_pages := pageNum,
        had_truncated := (next.2).hasNextPage.getD false }
      let fd' := fd || scanDisabled dm (next.1).comments
      let fai' := fai || scanAi am (next.1).comments
      if fd' && fai' then .ok (snapshot', calls + 1, some (c :: cr))
      else if !((next.2).hasNextPage.getD false) then .ok (snapshot', calls + 1, some (c :: cr))
      else paginateLoop fetch fuel snapshot' dm am fd' fai'
        (next.2).endCursor (pageNum + 1) (calls + 1)

/-- `paginate_issue_comments` (lines 291-375).  Returns the final snapshot
together with the number of `graphql_fetch_issue` calls performed (the
cursor re-fetch of page 1 at line 339 included); the loop's third component
— the `after_cursor` value at loop exit, an observer added for the
early-exit statements — is dropped. -/
def paginate_issue_comments (fetch : Nat → Option Str → IssueSnapshot × RawPageInfo)
    (fuel : Nat) (initial : IssueSnapshot) (disabled_marker ai_comment_marker : Str) :
    Except Unit (IssueSnapshot × Nat) :=
  if !initial.had_truncated then .ok (initial, 0)
  else
    let fd := scanDisabled disabled_marker initial.comments
    let fai := scanAi ai_comment_marker initial.comments
    if fd && fai then .ok (initial, 0)
    else
      let firstFetch := fetch 100 none
      (paginateLoop fetch fuel initial disabled_marker ai_comment_marker fd fai
        (firstFetch.2).endCursor 2 1).map (fun r => (r.1, r.2.1))

/-!
## Claim-side predicates and encodings

The definitions below are not translations of source functions: they package
the well-formedness assumptions and the expected encoded line streams that
the claim theorems quantify over.
-/

/-- A line matching none of the prefixes recognised by the dispatch chain of
`UserStoryEvalResponse.from_text` (lines 120-139). -/
def textLineUnrecognized (line : Str) : Bool :=
  !pyStartswith "Summary:".toList line &&
  !pyStartswith "- Title:".toList (pyStrip line) &&
  !pyStartswith "- Description:".toList (pyStrip line) &&
  !pyStartswith "- Acceptance Criteria:".toList (pyStrip line) &&
  !pyStartswith "Importance:".toList line &&
  !pyStartswith "Acceptance Criteria Evaluation:".toList line &&
  !pyStartswith "Labels:".toList line &&
  !pyStartswith "Ready to Work:".toList line &&
  !pyStartswith "Base Story Not Clear:".toList line &&
  !pyStartswith "### Refactored Story".toList line

/-- ASCII letters and digits: the character stock for well-formed refactored
story fields. -/
def alnumChar (c : Char) : Bool := c.isAlpha || c.isDigit

/-- A string of ASCII letters and digits only. -/
def alnumStr (s : Str) : Bool := s.all alnumChar

/-- A text field that survives the markdown codec verbatim: single-line (no
characters `splitlines` breaks on) and already stripped. -/
def wfText (s : Str) : Prop :=
  (∀ c ∈ s, isLineBreak c = false) ∧ pyStrip s = s

/-- A label that survives the comma-joined list: a nonempty, comma-free,
single-line, stripped string. -/
def wfLabel (l : Str) : Prop := wfText l ∧ l ≠ [] ∧ ',' ∉ l

/-- Well-formed `UserStoryEvalResponse`: the free-text fields are single-line
and stripped, labels are comma-free, and — when the refactored story is
emitted, i.e. `not ready_to_work and not base_story_not_clear` — its title,
description and acceptance criteria are nonempty ASCII-alphanumeric
tokens. -/
def wfRecord (r : UserStoryEvalResponse) : Prop :=
  wfText r.summary ∧ wfText r.importance ∧
  wfText r.acceptance_criteria_evaluation ∧
  (∀ l ∈ r.labels, wfLabel l) ∧
  (r.ready_to_work = false → r.base_story_not_clear = false →
    r.refactored.title ≠ [] ∧ alnumStr r.refactored.title = true ∧
    r.refactored.description ≠ [] ∧ alnumStr r.refactored.description = true ∧
    ∃ cs, r.refactored.acceptance_criteria = some cs ∧ cs ≠ [] ∧
      ∀ c ∈ cs, c ≠ [] ∧ alnumStr c = true)

/-- ASCII-lowercasing of a refactored story, the transformation
`UserStoryRefactored.from_markdown` applies to re-decoded content. -/
def lowerStory (s : UserStoryRefactored) : UserStoryRefactored :=
  ⟨pyLower s.title, pyLower s.description,
    s.acceptance_criteria.map (fun cs => cs.map pyLower)⟩

/-- The explanatory note of lines 237-240 as `splitlines` sees it: the
element `unclearNote` without its leading newline. -/
def noteLine : Str :=
  ("**❌ Refactored Story could not be provided because the original story " ++
   "is unclear or lacks meaningful value. Please rewrite the title and " ++
   "description to clearly explain the story\x27s purpose and value.**").toList

/-- The character stream `to_markdown` emits for the ten unconditional
template lines, continued by `rest`; parenthesised so that each line is one
append operand. -/
def encCommonChain (S I A : Str) (b1 b2 b3 b4 : Bool) (ls : List Str)
    (rest : List Char) : Str :=
  "### 🤖 **AI-enhanced Evaluation**".toList ++ '\n' ::
  (("**Summary**: ".toList ++ S) ++ '\n' ::
  ("**Completeness**:".toList ++ '\n' ::
  ((" - Title: ".toList ++ ynEmoji b1) ++ '\n' :: ('\n' ::
  ((" - Description: ".toList ++ ynEmoji b2) ++ '\n' :: ('\n' ::
  ((" - Acceptance Criteria: ".toList ++ ynEmoji b3) ++ '\n' :: ('\n' :: ('\n' ::
  (("**Importance**: ".toList ++ I) ++ '\n' :: ('\n' :: ('\n' ::
  (("**Acceptance Criteria Evaluation**: ".toList ++ A) ++ '\n' :: ('\n' :: ('\n' ::
  (("**Suggested Labels**: ".toList ++ pyJoin ", ".toList ls) ++ '\n' :: ('\n' :: ('\n' ::
  (("**Ready to Work**: ".toList ++ ynEmoji b4) ++ '\n' :: rest)))))))))))))))))))

/-- The lines `splitlines` recovers from `encCommonChain` before `rest`. -/
def encCommonLines (S I A : Str) (b1 b2 b3 b4 : Bool) (ls : List Str) : List Str :=
  ["### 🤖 **AI-enhanced Evaluation**".toList,
   "**Summary**: ".toList ++ S,
   "**Completeness**:".toList,
   " - Title: ".toList ++ ynEmoji b1, [],
   " - Description: ".toList ++ ynEmoji b2, [],
   " - Acceptance Criteria: ".toList ++ ynEmoji b3, [], [],
   "**Importance**: ".toList ++ I, [], [],
   "**Acceptance Criteria Evaluation**: ".toList ++ A, [], [],
   "**Suggested Labels**: ".toList ++ pyJoin ", ".toList ls, [], [],
   "**Ready to Work**: ".toList ++ ynEmoji b4]

/-- The list of lines accumulated in `refactored_md` when `from_markdown`
walks the refactored-story section of `to_markdown` output. -/
def fragLines (T D : Str) (cs : List Str) : List Str :=
  ("**Title**: ".toList ++ T) :: [] :: ("**Description**: ".toList ++ D) :: [] ::
  "**Acceptance Criteria**:".toList ::
  (cs.map (fun x => "- ".toList ++ x) ++
    [[], " Reply \"/apply\" to apply these updates.".toList])

/-!
## Toolkit lemmas and claim theorems
-/

theorem containsSub_iff (n h : Str) : containsSub n h = true ↔ n <:+: h := by
  induction h with
  | nil => simp [containsSub, List.isEmpty_iff]
  | cons c rest ih =>
    simp only [containsSub, Bool.or_eq_true, List.isPrefixOf_iff_prefix, ih,
      List.infix_cons_iff]

theorem containsSub_eq_false_of_count (n h : Str) (c : Char)
    (hc : h.count c < n.count c) : containsSub n h = false := by
  rw [← Bool.not_eq_true, containsSub_iff]
  intro hinf
  exact absurd (hinf.sublist.count_le c) (not_le.mpr hc)

theorem pyStartswith_append (pre t : Str) : pyStartswith pre (pre ++ t) = true := by
  rw [pyStartswith, List.isPrefixOf_iff_prefix]
  exact List.prefix_append pre t

theorem mem_of_pyStartswith (pre s : Str) (h : pyStartswith pre s = true)
    (c : Char) (hc : c ∈ pre) : c ∈ s := by
  rw [pyStartswith, List.isPrefixOf_iff_prefix] at h
  exact h.subset hc

theorem dropWhile_append_singleton (p : Char → Bool) (xs : Str) (c : Char)
    (hc : p c = false) :
    List.dropWhile p (xs ++ [c]) = List.dropWhile p xs ++ [c] := by
  induction xs with
  | nil => simp [List.dropWhile, hc]
  | cons x xs ih =>
    by_cases hx : p x = true
    · simp [List.dropWhile_cons, hx, ih]
    · simp only [Bool.not_eq_true] at hx
      simp [List.dropWhile_cons, hx]

theorem pyRstrip_cons_of_not_space (c : Char) (s : Str) (h : pyIsSpace c = false) :
    pyRstrip (c :: s) = c :: pyRstrip s := by
  unfold pyRstrip
  rw [List.reverse_cons, dropWhile_append_singleton pyIsSpace s.reverse c h,
    List.reverse_append]
  rfl

theorem pyRstrip_prefix_self (s : Str) : pyRstrip s <+: s := by
  have h1 : s.reverse.dropWhile pyIsSpace <:+ s.reverse := List.dropWhile_suffix pyIsSpace
  have h2 := List.reverse_prefix.mpr h1
  rwa [List.reverse_reverse] at h2

theorem pyLstrip_of_stripped (s : Str) (h : pyStrip s = s) : pyLstrip s = s := by
  have hsuf : pyLstrip s <:+ s := List.dropWhile_suffix pyIsSpace
  have hlen : (pyLstrip s).length = s.length := by
    have e := congrArg List.length h
    rw [pyStrip] at e
    have l1 : (pyRstrip (pyLstrip s)).length ≤ (pyLstrip s).length :=
      (pyRstrip_prefix_self (pyLstrip s)).length_le
    have l2 : (pyLstrip s).length ≤ s.length := hsuf.length_le
    omega
  exact hsuf.eq_of_length hlen

theorem pyRstrip_of_stripped (s : Str) (h : pyStrip s = s) : pyRstrip s = s := by
  have h1 := pyLstrip_of_stripped s h
  rw [pyStrip, h1] at h
  exact h

theorem pyStrip_space_cons (s : Str) (h : pyStrip s = s) : pyStrip (' ' :: s) = s := by
  unfold pyStrip
  have h1 : pyLstrip (' ' :: s) = pyLstrip s := by
    unfold pyLstrip
    simp [List.dropWhile_cons, pyIsSpace]
  rw [h1, pyLstrip_of_stripped s h, pyRstrip_of_stripped s h]

theorem pyStrip_cons_of_not_space (c : Char) (s : Str) (hc : pyIsSpace c = false) :
    pyStrip (c :: s) = c :: pyRstrip s := by
  unfold pyStrip pyLstrip
  simp only [List.dropWhile_cons, hc, cond_false]
  exact pyRstrip_cons_of_not_space c s hc

theorem toLower_not_upper (a : Char) : (Char.toLower a).isUpper = false := by
  unfold Char.toLower Char.isUpper
  by_cases h : a.toNat ≥ 65 ∧ a.toNat ≤ 90
  · rw [if_pos h]
    have hv : (a.toNat + 32).isValidChar := Or.inl (by omega)
    have ht : (Char.ofNat (a.toNat + 32)).toNat = a.toNat + 32 := by
      rw [Char.ofNat, dif_pos hv]
      rfl
    have h90 : ¬ ((Char.ofNat (a.toNat + 32)).val ≤ 90) := by
      intro hle
      have h2 : (Char.ofNat (a.toNat + 32)).toNat ≤ (90 : UInt32).toNat := hle
      rw [ht] at h2
      simp [UInt32.toNat] at h2
      omega
    simp [h90]
  · rw [if_neg h]
    rcases not_and_or.mp h with h1 | h1
    · have h2 : ¬ (65 ≤ a.val) := by
        intro hle
        exact h1 (by exact_mod_cast hle)
      simp [h2]
    · have h2 : ¬ (a.val ≤ 90) := by
        intro hle
        exact h1 (by exact_mod_cast hle)
      simp [h2]

theorem notUpper_of_mem_pyLower (x : Str) (c : Char) (hc : c ∈ pyLower x) :
    c.isUpper = false := by
  rw [pyLower] at hc
  obtain ⟨a, _, rfl⟩ := List.mem_map.mp hc
  exact toLower_not_upper a

theorem pyLstrip_subset (s : Str) (c : Char) (hc : c ∈ pyLstrip s) : c ∈ s :=
  (List.dropWhile_suffix pyIsSpace).sublist.subset hc

theorem pyRstrip_subset (s : Str) (c : Char) (hc : c ∈ pyRstrip s) : c ∈ s :=
  (pyRstrip_prefix_self s).sublist.subset hc

theorem pyStrip_subset (s : Str) (c : Char) (hc : c ∈ pyStrip s) : c ∈ s :=
  pyLstrip_subset s c (pyRstrip_subset (pyLstrip s) c hc)

theorem afterFirst_subset (sep : Char) (s : Str) (c : Char)
    (hc : c ∈ afterFirst sep s) : c ∈ s := by
  rw [afterFirst] at hc
  rcases hd : s.dropWhile (fun x => !(x = sep : Bool)) with _ | ⟨a, tail⟩
  · rw [hd] at hc
    exact hc
  · rw [hd] at hc
    have h1 : tail <:+ s := by
      have h2 : a :: tail <:+ s := hd ▸ List.dropWhile_suffix _
      exact (List.tail_suffix (a :: tail)).trans h2
    exact h1.sublist.subset hc

theorem allNotUpper_pyStrip_afterFirst (x : Str) :
    (pyStrip (afterFirst ':' (pyLower x))).all (fun c => !c.isUpper) = true := by
  rw [List.all_eq_true]
  intro c hc
  have h1 := pyStrip_subset _ c hc
  have h2 := afterFirst_subset ':' _ c h1
  have h3 := notUpper_of_mem_pyLower x c h2
  simp [h3]

theorem textStep_unrecognized (st : TextState) (l : Str)
    (h : textLineUnrecognized l = true) (hs : st.inRefactoredSection = false) :
    textStep st l = st := by
  unfold textLineUnrecognized at h
  simp only [Bool.and_eq_true, Bool.not_eq_true'] at h
  obtain ⟨⟨⟨⟨⟨⟨⟨⟨⟨h1, h2⟩, h3⟩, h4⟩, h5⟩, h6⟩, h7⟩, h8⟩, h9⟩, h10⟩ := h
  unfold textStep
  simp only [h1, h2, h3, h4, h5, h6, h7, h8, h9, h10, hs, Bool.false_eq_true,
    if_false]

theorem foldl_textStep_unrecognized (lines : List Str)
    (h : ∀ l ∈ lines, textLineUnrecognized l = true) :
    lines.foldl textStep TextState.init = TextState.init := by
  induction lines with
  | nil => rfl
  | cons l ls ih =>
    rw [List.foldl_cons, textStep_unrecognized TextState.init l (h l (by simp)) rfl]
    exact ih (fun x hx => h x (by simp [hx]))

theorem textStep_no_section (st : TextState) (l : Str)
    (hl : pyStartswith "### Refactored Story".toList l = false)
    (h1 : st.inRefactoredSection = false) (h2 : st.refactored_dict = RefDict.empty) :
    (textStep st l).inRefactoredSection = false ∧
      (textStep st l).refactored_dict = RefDict.empty := by
  unfold textStep
  by_cases g1 : pyStartswith "Summary:".toList l = true
  · rw [if_pos g1]; exact ⟨h1, h2⟩
  rw [if_neg g1]
  by_cases g2 : pyStartswith "- Title:".toList (pyStrip l) = true
  · rw [if_pos g2]; exact ⟨h1, h2⟩
  rw [if_neg g2]
  by_cases g3 : pyStartswith "- Description:".toList (pyStrip l) = true
  · rw [if_pos g3]; exact ⟨h1, h2⟩
  rw [if_neg g3]
  by_cases g4 : pyStartswith "- Acceptance Criteria:".toList (pyStrip l) = true
  · rw [if_pos g4]; exact ⟨h1, h2⟩
  rw [if_neg g4]
  by_cases g5 : pyStartswith "Importance:".toList l = true
  · rw [if_pos g5]; exact ⟨h1, h2⟩
  rw [if_neg g5]
  by_cases g6 : pyStartswith "Acceptance Criteria Evaluation:".toList l = true
  · rw [if_pos g6]; exact ⟨h1, h2⟩
  rw [if_neg g6]
  by_cases g7 : pyStartswith "Labels:".toList l = true
  · rw [if_pos g7]; exact ⟨h1, h2⟩
  rw [if_neg g7]
  by_cases g8 : pyStartswith "Ready to Work:".toList l = true
  · rw [if_pos g8]; exact ⟨h1, h2⟩
  rw [if_neg g8]
  by_cases g9 : pyStartswith "Base Story Not Clear:".toList l = true
  · rw [if_pos g9]; exact ⟨h1, h2⟩
  rw [if_neg g9]
  have g10 : ¬ (pyStartswith "### Refactored Story".toList l = true) := by
    rw [hl]; exact Bool.false_ne_true
  rw [if_neg g10]
  have g11 : ¬ (st.inRefactoredSection = true) := by
    rw [h1]; exact Bool.false_ne_true
  rw [if_neg g11]
  exact ⟨h1, h2⟩

theorem foldl_textStep_no_section (lines : List Str)
    (h : ∀ l ∈ lines, pyStartswith "### Refactored Story".toList l = false) :
    ((lines.foldl textStep TextState.init).inRefactoredSection = false ∧
      (lines.foldl textStep TextState.init).refactored_dict = RefDict.empty) := by
  suffices hgen : ∀ st : TextState, st.inRefactoredSection = false →
      st.refactored_dict = RefDict.empty →
      ((lines.foldl textStep st).inRefactoredSection = false ∧
        (lines.foldl textStep st).refactored_dict = RefDict.empty) from
    hgen TextState.init rfl rfl
  induction lines with
  | nil => exact fun st hs hd => ⟨hs, hd⟩
  | cons l ls ih =>
    intro st hs hd
    rw [List.foldl_cons]
    obtain ⟨hs', hd'⟩ := textStep_no_section st l (h l (by simp)) hs hd
    exact ih (fun x hx => h x (by simp [hx])) _ hs' hd'

theorem refMdStep_notUpper (st : RefMdState) (l : Str)
    (h1 : st.title.all (fun c => !c.isUpper) = true)
    (h2 : st.description.all (fun c => !c.isUpper) = true) :
    (refMdStep st l).title.all (fun c => !c.isUpper) = true ∧
      (refMdStep st l).description.all (fun c => !c.isUpper) = true := by
  simp only [refMdStep]
  by_cases g1 : pyStartswith "**title**:".toList (pyLower (pyStrip l)) = true
  · rw [if_pos g1]
    exact ⟨allNotUpper_pyStrip_afterFirst (pyStrip l), h2⟩
  rw [if_neg g1]
  by_cases g2 : pyStartswith "**description**:".toList (pyLower (pyStrip l)) = true
  · rw [if_pos g2]
    exact ⟨h1, allNotUpper_pyStrip_afterFirst (pyStrip l)⟩
  rw [if_neg g2]
  by_cases g3 : pyStartswith "**acceptance criteria**:".toList (pyLower (pyStrip l)) = true
  · rw [if_pos g3]; exact ⟨h1, h2⟩
  rw [if_neg g3]
  by_cases g4 : (st.inAcSection && pyStartswith "-".toList (pyLower (pyStrip l))) = true
  · rw [if_pos g4]; exact ⟨h1, h2⟩
  rw [if_neg g4]
  by_cases g5 : (st.inAcSection && !pyStartswith "-".toList (pyLower (pyStrip l))) = true
  · rw [if_pos g5]; exact ⟨h1, h2⟩
  rw [if_neg g5]
  exact ⟨h1, h2⟩

theorem foldl_refMdStep_notUpper (lines : List Str) (st : RefMdState)
    (h1 : st.title.all (fun c => !c.isUpper) = true)
    (h2 : st.description.all (fun c => !c.isUpper) = true) :
    (lines.foldl refMdStep st).title.all (fun c => !c.isUpper) = true ∧
      (lines.foldl refMdStep st).description.all (fun c => !c.isUpper) = true := by
  induction lines generalizing st with
  | nil => exact ⟨h1, h2⟩
  | cons l ls ih =>
    rw [List.foldl_cons]
    obtain ⟨k1, k2⟩ := refMdStep_notUpper st l h1 h2
    exact ih (refMdStep st l) k1 k2

/-- Claim C9: `UserStoryEvalResponse.from_text` is total — it returns a
record for every input, never raising.  An input none of whose lines carries
a recognized prefix yields the default record: empty `summary`,
`importance` and `acceptance_criteria_evaluation`, all four booleans false,
empty `labels`, and the empty refactored story built by
`UserStoryRefactored.from_dict({})`; moreover every record built by
`from_text` has its `refactored` field constructed by `from_dict`, hence
never `None`. -/
theorem c9_from_text_total :
    (∀ text : Str, (∀ l ∈ pySplitlines text, textLineUnrecognized l = true) →
      UserStoryEvalResponse.from_text text =
        ⟨[], false, false, false, [], [], [], false, false, ⟨[], [], some []⟩⟩) ∧
    (∀ text : Str, ∃ d : RefDict,
      (UserStoryEvalResponse.from_text text).refactored =
        UserStoryRefactored.from_dict d) := by
  constructor
  · intro text h
    have hst := foldl_textStep_unrecognized (pySplitlines text) h
    simp only [UserStoryEvalResponse.from_text, hst]
    rfl
  · intro text
    exact ⟨((pySplitlines text).foldl textStep TextState.init).refactored_dict, rfl⟩

/-- Claim C9, witness: the unrecognized-line hypothesis discharged at a
concrete input. -/
theorem c9_witness :
    UserStoryEvalResponse.from_text "the weather is nice".toList =
      ⟨[], false, false, false, [], [], [], false, false, ⟨[], [], some []⟩⟩ :=
  c9_from_text_total.1 ("the weather is nice".toList) (by decide)

/-- Claim C2, counterexample: `from_text("not json")` returns a record — the
all-default one — instead of raising a `ParseError`; no JSON validation (and
no `ParseError` class) exists in the source, so the claimed failure cannot
occur. -/
theorem c2_counterexample :
    UserStoryEvalResponse.from_text "not json".toList =
      mkResponse [] false false false [] [] [] false false
        (some (UserStoryRefactored.from_dict RefDict.empty)) := by
  decide

/-- Claim C2, amended: decoding raw model text never fails — `from_text`
performs no JSON validation and returns a record for every input; inputs
that are not in the recognized line format, such as `"not json"`, decode to
the default record with empty fields, all booleans false, and the empty
refactored story. -/
theorem c2_amended_no_error :
    UserStoryEvalResponse.from_text "not json".toList =
      ⟨[], false, false, false, [], [], [], false, false, ⟨[], [], some []⟩⟩ ∧
    UserStoryEvalResponse.from_text "this is not valid model output".toList =
      ⟨[], false, false, false, [], [], [], false, false, ⟨[], [], some []⟩⟩ := by
  exact ⟨by decide, by decide⟩

/-- Claim C3, counterexample: decoding text that contains a
`### Refactored Story` section together with `Ready to Work: true` yields a
record whose `refactored` field is populated (`title = "T"`), contradicting
the claimed gating on `ready_to_work`/`base_story_not_clear`. -/
theorem c3_counterexample :
    (UserStoryEvalResponse.from_text
        "Ready to Work: true\n### Refactored Story\nTitle: T".toList).ready_to_work
        = true ∧
    (UserStoryEvalResponse.from_text
        "Ready to Work: true\n### Refactored Story\nTitle: T".toList).refactored.title
        = "T".toList := by
  exact ⟨by decide, by decide⟩

/-- Claim C3, amended: `from_text` populates `refactored` from the
`### Refactored Story` section whenever such a section is present,
regardless of `ready_to_work` and `base_story_not_clear`; when no line
starts that section, `refactored` is the empty story produced by
`from_dict({})` (and it is never `None`). -/
theorem c3_amended_ungated :
    (∀ text : Str,
      (∀ l ∈ pySplitlines text, pyStartswith "### Refactored Story".toList l = false) →
      (UserStoryEvalResponse.from_text text).refactored =
        UserStoryRefactored.from_dict RefDict.empty) ∧
    (UserStoryEvalResponse.from_text
        ("Ready to Work: true\nBase Story Not Clear: true\n### Refactored Story\n" ++
         "Title: T\nDescription: D\nAcceptance Criteria:\n- A").toList).refactored =
      ⟨"T".toList, "D".toList, some ["A".toList]⟩ := by
  constructor
  · intro text h
    have hst := foldl_textStep_no_section (pySplitlines text) h
    exact congrArg UserStoryRefactored.from_dict hst.2
  · decide

/-- Claim C3, witness: the no-section hypothesis discharged at a concrete
input. -/
theorem c3_witness :
    (UserStoryEvalResponse.from_text "Ready to Work: true".toList).refactored =
      UserStoryRefactored.from_dict RefDict.empty :=
  c3_amended_ungated.1 ("Ready to Work: true".toList) (by decide)

/-- Claim C10: `UserStoryRefactored.from_markdown` matches and splits on
`line.strip().lower()`, so the decoded `title` and `description` never
contain an (ASCII) uppercase character — even when the fragment encoded by
`to_markdown` contained uppercase text, as the concrete round trip of
`("T", "D", ["A"])` to `("t", "d", ["a"])` shows. -/
theorem c10_from_markdown_lowercases :
    (∀ md : Str,
      (UserStoryRefactored.from_markdown md).title.all (fun c => !c.isUpper) = true ∧
      (UserStoryRefactored.from_markdown md).description.all (fun c => !c.isUpper) = true) ∧
    UserStoryRefactored.from_markdown
        (UserStoryRefactored.to_markdown ⟨"T".toList, "D".toList, some ["A".toList]⟩) =
      ⟨"t".toList, "d".toList, some ["a".toList]⟩ := by
  constructor
  · intro md
    exact foldl_refMdStep_notUpper (pySplitlines md) ⟨[], [], [], false⟩ rfl rfl
  · decide

set_option maxHeartbeats 1600000 in
theorem pySplitlinesGo_cons_not_break (c : Char) (xs acc : List Char)
    (hc : isLineBreak c = false) :
    pySplitlinesGo (c :: xs) acc = pySplitlinesGo xs (c :: acc) := by
  have hr : c ≠ '\r' := by
    intro h
    subst h
    simp [isLineBreak] at hc
  rw [pySplitlinesGo.eq_def]
  split
  · rename_i heq
    exact absurd heq (List.cons_ne_nil _ _)
  · rename_i heq hguard
    exact absurd heq (List.cons_ne_nil _ _)
  · rename_i heq
    injection heq with h1 h2
    exact absurd h1 hr
  · rename_i hguard heq
    injection heq with h1 h2
    subst h1
    subst h2
    rw [hc]
    simp

theorem pySplitlinesGo_newline (xs acc : List Char) :
    pySplitlinesGo ('\n' :: xs) acc = acc.reverse :: pySplitlinesGo xs [] := rfl

theorem pySplitlinesGo_append (l : Str) (rest acc : List Char)
    (hl : ∀ c ∈ l, isLineBreak c = false) :
    pySplitlinesGo (l ++ '\n' :: rest) acc =
      (acc.reverse ++ l) :: pySplitlinesGo rest [] := by
  induction l generalizing acc with
  | nil => simp [pySplitlinesGo_newline]
  | cons c l ih =>
    rw [List.cons_append, pySplitlinesGo_cons_not_break c _ acc (hl c (by simp)),
      ih (c :: acc) (fun x hx => hl x (by simp [hx]))]
    simp

theorem pySplitlinesGo_no_break (l : Str) (acc : List Char)
    (hl : ∀ c ∈ l, isLineBreak c = false) (hne : acc.reverse ++ l ≠ []) :
    pySplitlinesGo l acc = [acc.reverse ++ l] := by
  induction l generalizing acc with
  | nil =>
    cases hacc : acc with
    | nil =>
      subst hacc
      simp at hne
    | cons a as =>
      subst hacc
      simp [pySplitlinesGo]
  | cons c l ih =>
    rw [pySplitlinesGo_cons_not_break c _ acc (hl c (by simp)),
      ih (c :: acc) (fun x hx => hl x (by simp [hx])) (by simp)]
    simp

theorem pySplitlines_append (l : Str) (rest : List Char)
    (hl : ∀ c ∈ l, isLineBreak c = false) :
    pySplitlines (l ++ '\n' :: rest) = l :: pySplitlines rest := by
  rw [pySplitlines, pySplitlinesGo_append l rest [] hl]
  rfl

theorem pySplitlines_single (l : Str) (hl : ∀ c ∈ l, isLineBreak c = false)
    (hne : l ≠ []) : pySplitlines l = [l] := by
  rw [pySplitlines, pySplitlinesGo_no_break l [] hl (by simpa using hne)]
  simp

theorem pyJoin_cons_cons (x y : Str) (zs : List Str) :
    pyJoin "\n".toList (x :: y :: zs) = x ++ '\n' :: pyJoin "\n".toList (y :: zs) := by
  simp [pyJoin, List.intercalate, List.intersperse]

theorem pyJoin_single (sep x : Str) : pyJoin sep [x] = x := by
  simp [pyJoin, List.intercalate]

theorem alnum_not_space (c : Char) (h : alnumChar c = true) : pyIsSpace c = false := by
  cases hs : pyIsSpace c
  · rfl
  · exfalso
    simp only [pyIsSpace, Bool.or_eq_true, decide_eq_true_eq] at hs
    rcases hs with
      ((((((((((rfl | rfl) | rfl) | rfl) | rfl) | rfl) | rfl) | rfl) | rfl) | rfl) | rfl) |
        rfl <;>
      exact absurd h (by decide)

theorem alnum_not_break (c : Char) (h : alnumChar c = true) : isLineBreak c = false := by
  cases hs : isLineBreak c
  · rfl
  · exfalso
    simp only [isLineBreak, Bool.or_eq_true, decide_eq_true_eq] at hs
    rcases hs with
      ((((((((rfl | rfl) | rfl) | rfl) | rfl) | rfl) | rfl) | rfl) | rfl) | rfl <;>
      exact absurd h (by decide)

theorem not_mem_of_alnum (s : Str) (hs : alnumStr s = true) (c : Char)
    (hc : alnumChar c = false) : c ∉ s := by
  intro hmem
  have h1 := List.all_eq_true.mp hs c hmem
  rw [hc] at h1
  cases h1

theorem no_space_of_alnum (s : Str) (hs : alnumStr s = true) :
    ∀ c ∈ s, pyIsSpace c = false :=
  fun c hc => alnum_not_space c (List.all_eq_true.mp hs c hc)

theorem no_break_of_alnum (s : Str) (hs : alnumStr s = true) :
    ∀ c ∈ s, isLineBreak c = false :=
  fun c hc => alnum_not_break c (List.all_eq_true.mp hs c hc)

theorem count_space_of_alnum (s : Str) (hs : alnumStr s = true) : s.count ' ' = 0 :=
  List.count_eq_zero.mpr (not_mem_of_alnum s hs ' ' (by decide))

theorem toLower_alnum (c : Char) (h : alnumChar c = true) :
    alnumChar (Char.toLower c) = true := by
  unfold Char.toLower
  by_cases hu : c.toNat ≥ 65 ∧ c.toNat ≤ 90
  · rw [if_pos hu]
    have hv : (c.toNat + 32).isValidChar := Or.inl (by omega)
    have ht : (Char.ofNat (c.toNat + 32)).toNat = c.toNat + 32 := by
      rw [Char.ofNat, dif_pos hv]
      rfl
    have h97 : (97 : UInt32) ≤ (Char.ofNat (c.toNat + 32)).val := by
      have h2 : (97 : UInt32).toNat ≤ (Char.ofNat (c.toNat + 32)).toNat := by
        rw [ht]
        simp [UInt32.toNat]
        omega
      exact_mod_cast h2
    have h122 : (Char.ofNat (c.toNat + 32)).val ≤ (122 : UInt32) := by
      have h2 : (Char.ofNat (c.toNat + 32)).toNat ≤ (122 : UInt32).toNat := by
        rw [ht]
        simp [UInt32.toNat]
        omega
      exact_mod_cast h2
    simp [alnumChar, Char.isAlpha, Char.isLower, h97, h122]
  · rw [if_neg hu]
    exact h

theorem alnumStr_pyLower (s : Str) (h : alnumStr s = true) :
    alnumStr (pyLower s) = true := by
  rw [alnumStr, pyLower, List.all_eq_true]
  intro c hc
  obtain ⟨a, ha, rfl⟩ := List.mem_map.mp hc
  exact toLower_alnum a (List.all_eq_true.mp h a ha)

theorem pyLstrip_cons_of_not_space (c : Char) (s : Str) (h : pyIsSpace c = false) :
    pyLstrip (c :: s) = c :: s := by
  simp [pyLstrip, List.dropWhile_cons, h]

theorem pyRstrip_append_of_no_space (a b : Str) (hb : b ≠ [])
    (h : ∀ ch ∈ b, pyIsSpace ch = false) : pyRstrip (a ++ b) = a ++ b := by
  unfold pyRstrip
  obtain ⟨x, xs, hxr⟩ : ∃ x xs, b.reverse = x :: xs := by
    cases hb2 : b.reverse with
    | nil =>
      exfalso
      exact hb (by simpa using congrArg List.reverse hb2)
    | cons x xs => exact ⟨x, xs, rfl⟩
  have hx : pyIsSpace x = false := by
    have hxb : x ∈ b := by
      rw [← List.mem_reverse, hxr]
      simp
    exact h x hxb
  rw [List.reverse_append, hxr, List.cons_append, List.dropWhile_cons, hx]
  simp only [Bool.false_eq_true, if_false]
  rw [← List.cons_append, ← hxr, ← List.reverse_append, List.reverse_reverse]

theorem pyRstrip_of_no_space (s : Str) (h : ∀ ch ∈ s, pyIsSpace ch = false) :
    pyRstrip s = s := by
  cases hs : s with
  | nil => rfl
  | cons c cs =>
    have h2 : pyRstrip ([] ++ (c :: cs)) = [] ++ (c :: cs) :=
      pyRstrip_append_of_no_space [] (c :: cs) (by simp) (by rw [← hs]; exact h)
    simpa using h2

theorem pyStrip_of_no_space (s : Str) (h : ∀ ch ∈ s, pyIsSpace ch = false) :
    pyStrip s = s := by
  cases hs : s with
  | nil => rfl
  | cons c cs =>
    rw [pyStrip, pyLstrip_cons_of_not_space c cs (h c (by rw [hs]; simp))]
    exact pyRstrip_of_no_space (c :: cs) (by rw [← hs]; exact h)

theorem evalMdStep_nomatch (st : EvalMdState) (l : Str)
    (h1 : pyStartswith "**Summary**:".toList l = false)
    (h2 : pyStartswith "- Title:".toList (pyStrip l) = false)
    (h3 : pyStartswith "- Description:".toList (pyStrip l) = false)
    (h4 : pyStartswith "- Acceptance Criteria:".toList (pyStrip l) = false)
    (h5 : pyStartswith "**Importance**:".toList l = false)
    (h6 : pyStartswith "**Acceptance Criteria Evaluation**:".toList l = false)
    (h7 : pyStartswith "**Suggested Labels**:".toList l = false)
    (h8 : pyStartswith "**Ready to Work**:".toList l = false)
    (h9 : containsSub "Base Story Not Clear:".toList l = false)
    (h10 : containsSub "could not be provided because the original story is unclear".toList l = false)
    (h11 : pyStartswith "### Refactored Story".toList (pyStrip l) = false) :
    evalMdStep st l =
      if st.in_refactored then
        { st with refactored_md := st.refactored_md ++ [l] }
      else st := by
  unfold evalMdStep
  simp only [h1, h2, h3, h4, h5, h6, h7, h8, h9, h10, h11, Bool.false_eq_true, if_false]

theorem eval_step_heading (st : EvalMdState) (h : st.in_refactored = false) :
    evalMdStep st "### 🤖 **AI-enhanced Evaluation**".toList = st := by
  rw [evalMdStep_nomatch st _ (by decide) (by decide) (by decide) (by decide) (by decide)
    (by decide) (by decide) (by decide) (by decide) (by decide) (by decide), h]
  simp

theorem eval_step_completeness (st : EvalMdState) (h : st.in_refactored = false) :
    evalMdStep st "**Completeness**:".toList = st := by
  rw [evalMdStep_nomatch st _ (by decide) (by decide) (by decide) (by decide) (by decide)
    (by decide) (by decide) (by decide) (by decide) (by decide) (by decide), h]
  simp

theorem eval_step_empty_out (st : EvalMdState) (h : st.in_refactored = false) :
    evalMdStep st [] = st := by
  rw [evalMdStep_nomatch st _ (by decide) (by decide) (by decide) (by decide) (by decide)
    (by decide) (by decide) (by decide) (by decide) (by decide) (by decide), h]
  simp

theorem eval_step_empty_in (st : EvalMdState) (h : st.in_refactored = true) :
    evalMdStep st [] = { st with refactored_md := st.refactored_md ++ [[]] } := by
  rw [evalMdStep_nomatch st _ (by decide) (by decide) (by decide) (by decide) (by decide)
    (by decide) (by decide) (by decide) (by decide) (by decide) (by decide), h]
  simp

theorem eval_step_reply (st : EvalMdState) (h : st.in_refactored = true) :
    evalMdStep st " Reply \"/apply\" to apply these updates.".toList =
      { st with refactored_md :=
          st.refactored_md ++ [" Reply \"/apply\" to apply these updates.".toList] } := by
  rw [evalMdStep_nomatch st _ (by decide) (by decide) (by decide) (by decide) (by decide)
    (by decide) (by decide) (by decide) (by decide) (by decide) (by decide), h]
  simp

theorem eval_step_acheader (st : EvalMdState) (h : st.in_refactored = true) :
    evalMdStep st "**Acceptance Criteria**:".toList =
      { st with refactored_md := st.refactored_md ++ ["**Acceptance Criteria**:".toList] } := by
  rw [evalMdStep_nomatch st _ (by decide) (by decide) (by decide) (by decide) (by decide)
    (by decide) (by decide) (by decide) (by decide) (by decide) (by decide), h]
  simp

theorem eval_step_refheader (st : EvalMdState) :
    evalMdStep st "### Refactored Story".toList = { st with in_refactored := true } := rfl

theorem eval_step_note (st : EvalMdState) :
    evalMdStep st noteLine = { st with base_story_not_clear := true } := rfl

theorem startswith_strip_cons_head_ne (p : Str) (q : Char) (qs : Str)
    (hp : p = q :: qs) (a : Char) (s : Str) (ha : pyIsSpace a = false)
    (hqa : (q == a) = false) :
    pyStartswith p (pyStrip (a :: s)) = false := by
  subst hp
  rw [pyStrip_cons_of_not_space a s ha]
  show ((q :: qs).isPrefixOf (a :: pyRstrip s)) = false
  simp only [List.isPrefixOf, hqa, Bool.false_and]

theorem pyJoin_cons_cons2 (sep x y : Str) (zs : List Str) :
    pyJoin sep (x :: y :: zs) = x ++ sep ++ pyJoin sep (y :: zs) := by
  simp [pyJoin, List.intercalate, List.intersperse]

theorem splitLabels_pyJoin (ls : List Str) (h : ∀ l ∈ ls, wfLabel l) :
    splitLabels (' ' :: pyJoin ", ".toList ls) = ls := by
  induction ls with
  | nil => decide
  | cons l ls ih =>
    obtain ⟨⟨hlb, hls⟩, hlne, hlnc⟩ := h l (by simp)
    have hnotp : ∀ x ∈ (' ' :: l), ¬((x == ',') = true) := by
      intro x hx hxc
      rw [beq_iff_eq] at hxc
      subst hxc
      rcases List.mem_cons.mp hx with h2 | h2
      · exact absurd h2 (by decide)
      · exact hlnc h2
    cases ls with
    | nil =>
      rw [pyJoin_single, splitLabels,
        show List.splitOn ',' (' ' :: l) = List.splitOnP (fun x => x == ',') (' ' :: l)
          from rfl,
        List.splitOnP_eq_single _ _ hnotp]
      simp [pyStrip_space_cons l hls, hlne]
    | cons l2 ls2 =>
      have hinput : (' ' :: pyJoin ", ".toList (l :: l2 :: ls2)) =
          (' ' :: l) ++ ',' :: (' ' :: pyJoin ", ".toList (l2 :: ls2)) := by
        rw [pyJoin_cons_cons2]
        simp
      rw [splitLabels, hinput,
        show List.splitOn ','
            ((' ' :: l) ++ ',' :: (' ' :: pyJoin ", ".toList (l2 :: ls2))) =
          List.splitOnP (fun x => x == ',')
            ((' ' :: l) ++ ',' :: (' ' :: pyJoin ", ".toList (l2 :: ls2))) from rfl,
        List.splitOnP_first _ _ hnotp ',' (by decide) _]
      have htail := ih (fun x hx => h x (by simp [hx]))
      rw [splitLabels,
        show List.splitOn ',' (' ' :: pyJoin ", ".toList (l2 :: ls2)) =
          List.splitOnP (fun x => x == ',') (' ' :: pyJoin ", ".toList (l2 :: ls2))
          from rfl] at htail
      simp only [List.map_cons, List.filter_cons, pyStrip_space_cons l hls]
      rw [htail]
      simp [hlne]

theorem eval_step_flag_title (st : EvalMdState) (b : Bool) :
    evalMdStep st (" - Title: ".toList ++ ynEmoji b) = { st with title_complete := b } := by
  cases b <;> rfl

theorem eval_step_flag_desc (st : EvalMdState) (b : Bool) :
    evalMdStep st (" - Description: ".toList ++ ynEmoji b) =
      { st with description_complete := b } := by
  cases b <;> rfl

theorem eval_step_flag_ac (st : EvalMdState) (b : Bool) :
    evalMdStep st (" - Acceptance Criteria: ".toList ++ ynEmoji b) =
      { st with acceptance_criteria_complete := b } := by
  cases b <;> rfl

theorem eval_step_ready (st : EvalMdState) (b : Bool) :
    evalMdStep st ("**Ready to Work**: ".toList ++ ynEmoji b) =
      { st with ready_to_work := b } := by
  cases b <;> rfl

theorem eval_step_summary (st : EvalMdState) (S : Str) (hS : pyStrip S = S) :
    evalMdStep st ("**Summary**: ".toList ++ S) = { st with summary := S } := by
  unfold evalMdStep
  rw [if_pos (show pyStartswith "**Summary**:".toList ("**Summary**: ".toList ++ S) = true
    from rfl)]
  rw [show afterFirst ':' ("**Summary**: ".toList ++ S) = ' ' :: S from rfl,
    pyStrip_space_cons S hS]

theorem eval_step_importance (st : EvalMdState) (I : Str) (hI : pyStrip I = I) :
    evalMdStep st ("**Importance**: ".toList ++ I) = { st with importance := I } := by
  have h1 : pyStartswith "**Summary**:".toList ("**Importance**: ".toList ++ I) = false := rfl
  have h2 : pyStartswith "- Title:".toList (pyStrip ("**Importance**: ".toList ++ I)) = false := by
    show pyStartswith "- Title:".toList (pyStrip ('*' :: ("*Importance**: ".toList ++ I))) = false
    exact startswith_strip_cons_head_ne _ '-' _ rfl '*' _ (by decide) (by decide)
  have h3 : pyStartswith "- Description:".toList (pyStrip ("**Importance**: ".toList ++ I)) = false := by
    show pyStartswith "- Description:".toList (pyStrip ('*' :: ("*Importance**: ".toList ++ I))) = false
    exact startswith_strip_cons_head_ne _ '-' _ rfl '*' _ (by decide) (by decide)
  have h4 : pyStartswith "- Acceptance Criteria:".toList (pyStrip ("**Importance**: ".toList ++ I)) = false := by
    show pyStartswith "- Acceptance Criteria:".toList (pyStrip ('*' :: ("*Importance**: ".toList ++ I))) = false
    exact startswith_strip_cons_head_ne _ '-' _ rfl '*' _ (by decide) (by decide)
  have h5 : pyStartswith "**Importance**:".toList ("**Importance**: ".toList ++ I) = true := rfl
  unfold evalMdStep
  simp only [h1, h2, h3, h4, h5, Bool.false_eq_true, if_false, eq_self_iff_true, if_true]
  rw [show afterFirst ':' ("**Importance**: ".toList ++ I) = ' ' :: I from rfl,
    pyStrip_space_cons I hI]

theorem eval_step_ace (st : EvalMdState) (A : Str) (hA : pyStrip A = A) :
    evalMdStep st ("**Acceptance Criteria Evaluation**: ".toList ++ A) =
      { st with acceptance_criteria_evaluation := A } := by
  have h1 : pyStartswith "**Summary**:".toList
    ("**Acceptance Criteria Evaluation**: ".toList ++ A) = false := rfl
  have h2 : pyStartswith "- Title:".toList
      (pyStrip ("**Acceptance Criteria Evaluation**: ".toList ++ A)) = false := by
    show pyStartswith "- Title:".toList
      (pyStrip ('*' :: ("*Acceptance Criteria Evaluation**: ".toList ++ A))) = false
    exact startswith_strip_cons_head_ne _ '-' _ rfl '*' _ (by decide) (by decide)
  have h3 : pyStartswith "- Description:".toList
      (pyStrip ("**Acceptance Criteria Evaluation**: ".toList ++ A)) = false := by
    show pyStartswith "- Description:".toList
      (pyStrip ('*' :: ("*Acceptance Criteria Evaluation**: ".toList ++ A))) = false
    exact startswith_strip_cons_head_ne _ '-' _ rfl '*' _ (by decide) (by decide)
  have h4 : pyStartswith "- Acceptance Criteria:".toList
      (pyStrip ("**Acceptance Criteria Evaluation**: ".toList ++ A)) = false := by
    show pyStartswith "- Acceptance Criteria:".toList
      (pyStrip ('*' :: ("*Acceptance Criteria Evaluation**: ".toList ++ A))) = false
    exact startswith_strip_cons_head_ne _ '-' _ rfl '*' _ (by decide) (by decide)
  have h5 : pyStartswith "**Importance**:".toList
    ("**Acceptance Criteria Evaluation**: ".toList ++ A) = false := rfl
  have h6 : pyStartswith "**Acceptance Criteria Evaluation**:".toList
    ("**Acceptance Criteria Evaluation**: ".toList ++ A) = true := rfl
  unfold evalMdStep
  simp only [h1, h2, h3, h4, h5, h6, Bool.false_eq_true, if_false, eq_self_iff_true, if_true]
  rw [show afterFirst ':' ("**Acceptance Criteria Evaluation**: ".toList ++ A) = ' ' :: A
    from rfl, pyStrip_space_cons A hA]

theorem eval_step_labels (st : EvalMdState) (ls : List Str) (h : ∀ l ∈ ls, wfLabel l) :
    evalMdStep st ("**Suggested Labels**: ".toList ++ pyJoin ", ".toList ls) =
      { st with labels := ls } := by
  have h1 : pyStartswith "**Summary**:".toList
    ("**Suggested Labels**: ".toList ++ pyJoin ", ".toList ls) = false := rfl
  have h2 : pyStartswith "- Title:".toList
      (pyStrip ("**Suggested Labels**: ".toList ++ pyJoin ", ".toList ls)) = false := by
    show pyStartswith "- Title:".toList
      (pyStrip ('*' :: ("*Suggested Labels**: ".toList ++ pyJoin ", ".toList ls))) = false
    exact startswith_strip_cons_head_ne _ '-' _ rfl '*' _ (by decide) (by decide)
  have h3 : pyStartswith "- Description:".toList
      (pyStrip ("**Suggested Labels**: ".toList ++ pyJoin ", ".toList ls)) = false := by
    show pyStartswith "- Description:".toList
      (pyStrip ('*' :: ("*Suggested Labels**: ".toList ++ pyJoin ", ".toList ls))) = false
    exact startswith_strip_cons_head_ne _ '-' _ rfl '*' _ (by decide) (by decide)
  have h4 : pyStartswith "- Acceptance Criteria:".toList
      (pyStrip ("**Suggested Labels**: ".toList ++ pyJoin ", ".toList ls)) = false := by
    show pyStartswith "- Acceptance Criteria:".toList
      (pyStrip ('*' :: ("*Suggested Labels**: ".toList ++ pyJoin ", ".toList ls))) = false
    exact startswith_strip_cons_head_ne _ '-' _ rfl '*' _ (by decide) (by decide)
  have h5 : pyStartswith "**Importance**:".toList
    ("**Suggested Labels**: ".toList ++ pyJoin ", ".toList ls) = false := rfl
  have h6 : pyStartswith "**Acceptance Criteria Evaluation**:".toList
    ("**Suggested Labels**: ".toList ++ pyJoin ", ".toList ls) = false := rfl
  have h7 : pyStartswith "**Suggested Labels**:".toList
    ("**Suggested Labels**: ".toList ++ pyJoin ", ".toList ls) = true := rfl
  unfold evalMdStep
  simp only [h1, h2, h3, h4, h5, h6, h7, Bool.false_eq_true, if_false,
    eq_self_iff_true, if_true]
  rw [show afterFirst ':' ("**Suggested Labels**: ".toList ++ pyJoin ", ".toList ls) =
    ' ' :: pyJoin ", ".toList ls from rfl, splitLabels_pyJoin ls h]

theorem eval_step_title_ref (st : EvalMdState) (T : Str) (hT : alnumStr T = true)
    (hin : st.in_refactored = true) :
    evalMdStep st ("**Title**: ".toList ++ T) =
      { st with refactored_md := st.refactored_md ++ ["**Title**: ".toList ++ T] } := by
  have h2 : pyStartswith "- Title:".toList (pyStrip ("**Title**: ".toList ++ T)) = false := by
    show pyStartswith "- Title:".toList (pyStrip ('*' :: ("*Title**: ".toList ++ T))) = false
    exact startswith_strip_cons_head_ne _ '-' _ rfl '*' _ (by decide) (by decide)
  have h3 : pyStartswith "- Description:".toList (pyStrip ("**Title**: ".toList ++ T)) = false := by
    show pyStartswith "- Description:".toList (pyStrip ('*' :: ("*Title**: ".toList ++ T))) = false
    exact startswith_strip_cons_head_ne _ '-' _ rfl '*' _ (by decide) (by decide)
  have h4 : pyStartswith "- Acceptance Criteria:".toList (pyStrip ("**Title**: ".toList ++ T)) = false := by
    show pyStartswith "- Acceptance Criteria:".toList (pyStrip ('*' :: ("*Title**: ".toList ++ T))) = false
    exact startswith_strip_cons_head_ne _ '-' _ rfl '*' _ (by decide) (by decide)
  have h9 : containsSub "Base Story Not Clear:".toList ("**Title**: ".toList ++ T) = false := by
    apply containsSub_eq_false_of_count _ _ ' '
    rw [List.count_append, count_space_of_alnum T hT]
    decide
  have h10 : containsSub "could not be provided because the original story is unclear".toList
      ("**Title**: ".toList ++ T) = false := by
    apply containsSub_eq_false_of_count _ _ ' '
    rw [List.count_append, count_space_of_alnum T hT]
    decide
  have h11 : pyStartswith "### Refactored Story".toList (pyStrip ("**Title**: ".toList ++ T)) = false := by
    show pyStartswith "### Refactored Story".toList (pyStrip ('*' :: ("*Title**: ".toList ++ T))) = false
    exact startswith_strip_cons_head_ne _ '#' _ rfl '*' _ (by decide) (by decide)
  rw [evalMdStep_nomatch st ("**Title**: ".toList ++ T) rfl h2 h3 h4 rfl rfl rfl rfl h9 h10 h11, hin]
  simp

theorem eval_step_desc_ref (st : EvalMdState) (D : Str) (hD : alnumStr D = true)
    (hin : st.in_refactored = true) :
    evalMdStep st ("**Description**: ".toList ++ D) =
      { st with refactored_md := st.refactored_md ++ ["**Description**: ".toList ++ D] } := by
  have h2 : pyStartswith "- Title:".toList (pyStrip ("**Description**: ".toList ++ D)) = false := by
    show pyStartswith "- Title:".toList (pyStrip ('*' :: ("*Description**: ".toList ++ D))) = false
    exact startswith_strip_cons_head_ne _ '-' _ rfl '*' _ (by decide) (by decide)
  have h3 : pyStartswith "- Description:".toList (pyStrip ("**Description**: ".toList ++ D)) = false := by
    show pyStartswith "- Description:".toList (pyStrip ('*' :: ("*Description**: ".toList ++ D))) = false
    exact startswith_strip_cons_head_ne _ '-' _ rfl '*' _ (by decide) (by decide)
  have h4 : pyStartswith "- Acceptance Criteria:".toList (pyStrip ("**Description**: ".toList ++ D)) = false := by
    show pyStartswith "- Acceptance Criteria:".toList (pyStrip ('*' :: ("*Description**: ".toList ++ D))) = false
    exact startswith_strip_cons_head_ne _ '-' _ rfl '*' _ (by decide) (by decide)
  have h9 : containsSub "Base Story Not Clear:".toList ("**Description**: ".toList ++ D) = false := by
    apply containsSub_eq_false_of_count _ _ ' '
    rw [List.count_append, count_space_of_alnum D hD]
    decide
  have h10 : containsSub "could not be provided because the original story is unclear".toList
      ("**Description**: ".toList ++ D) = false := by
    apply containsSub_eq_false_of_count _ _ ' '
    rw [List.count_append, count_space_of_alnum D hD]
    decide
  have h11 : pyStartswith "### Refactored Story".toList (pyStrip ("**Description**: ".toList ++ D)) = false := by
    show pyStartswith "### Refactored Story".toList (pyStrip ('*' :: ("*Description**: ".toList ++ D))) = false
    exact startswith_strip_cons_head_ne _ '#' _ rfl '*' _ (by decide) (by decide)
  rw [evalMdStep_nomatch st ("**Description**: ".toList ++ D) rfl h2 h3 h4 rfl rfl rfl rfl h9 h10 h11, hin]
  simp

theorem eval_step_bullet (st : EvalMdState) (c : Str) (hc : alnumStr c = true)
    (hcne : c ≠ []) (hin : st.in_refactored = true) :
    evalMdStep st ("- ".toList ++ c) =
      { st with refactored_md := st.refactored_md ++ ["- ".toList ++ c] } := by
  have hstrip : pyStrip ("- ".toList ++ c) = '-' :: ' ' :: c := by
    show pyStrip ('-' :: (' ' :: c)) = '-' :: ' ' :: c
    rw [pyStrip_cons_of_not_space '-' _ (by decide)]
    have h1 : pyRstrip ([' '] ++ c) = [' '] ++ c :=
      pyRstrip_append_of_no_space [' '] c hcne (no_space_of_alnum c hc)
    rw [show (' ' :: c) = [' '] ++ c from rfl, h1]
  have h2 : pyStartswith "- Title:".toList (pyStrip ("- ".toList ++ c)) = false := by
    rw [hstrip,
      show pyStartswith "- Title:".toList ('-' :: ' ' :: c) =
        ("Title:".toList).isPrefixOf c from rfl]
    cases hq : ("Title:".toList).isPrefixOf c
    · rfl
    · exact absurd (mem_of_pyStartswith _ _ hq ':' (by decide))
        (not_mem_of_alnum c hc ':' (by decide))
  have h3 : pyStartswith "- Description:".toList (pyStrip ("- ".toList ++ c)) = false := by
    rw [hstrip,
      show pyStartswith "- Description:".toList ('-' :: ' ' :: c) =
        ("Description:".toList).isPrefixOf c from rfl]
    cases hq : ("Description:".toList).isPrefixOf c
    · rfl
    · exact absurd (mem_of_pyStartswith _ _ hq ':' (by decide))
        (not_mem_of_alnum c hc ':' (by decide))
  have h4 : pyStartswith "- Acceptance Criteria:".toList (pyStrip ("- ".toList ++ c)) = false := by
    rw [hstrip,
      show pyStartswith "- Acceptance Criteria:".toList ('-' :: ' ' :: c) =
        ("Acceptance Criteria:".toList).isPrefixOf c from rfl]
    cases hq : ("Acceptance Criteria:".toList).isPrefixOf c
    · rfl
    · exact absurd (mem_of_pyStartswith _ _ hq ':' (by decide))
        (not_mem_of_alnum c hc ':' (by decide))
  have h9 : containsSub "Base Story Not Clear:".toList ("- ".toList ++ c) = false := by
    apply containsSub_eq_false_of_count _ _ ' '
    rw [List.count_append, count_space_of_alnum c hc]
    decide
  have h10 : containsSub "could not be provided because the original story is unclear".toList
      ("- ".toList ++ c) = false := by
    apply containsSub_eq_false_of_count _ _ ' '
    rw [List.count_append, count_space_of_alnum c hc]
    decide
  have h11 : pyStartswith "### Refactored Story".toList (pyStrip ("- ".toList ++ c)) = false := by
    rw [hstrip]
    rfl
  rw [evalMdStep_nomatch st ("- ".toList ++ c) rfl h2 h3 h4 rfl rfl rfl rfl h9 h10 h11, hin]
  simp

theorem pyStrip_bullet (c : Str) (hc : alnumStr c = true) (hcne : c ≠ []) :
    pyStrip ("- ".toList ++ c) = '-' :: ' ' :: c := by
  show pyStrip ('-' :: (' ' :: c)) = '-' :: ' ' :: c
  rw [pyStrip_cons_of_not_space '-' _ (by decide)]
  have h1 : pyRstrip ([' '] ++ c) = [' '] ++ c :=
    pyRstrip_append_of_no_space [' '] c hcne (no_space_of_alnum c hc)
  rw [show (' ' :: c) = [' '] ++ c from rfl, h1]

theorem pyStrip_star_line (pre : Str) (v : Str) (hv : alnumStr v = true) (hvne : v ≠ []) :
    pyStrip ('*' :: (pre ++ v)) = '*' :: (pre ++ v) := by
  rw [pyStrip_cons_of_not_space '*' _ (by decide)]
  congr 1
  exact pyRstrip_append_of_no_space pre v hvne (no_space_of_alnum v hv)

theorem pyLstripChars_dash_space (x : Str) (hx : alnumStr x = true) :
    pyLstripChars ['-', ' '] ('-' :: ' ' :: x) = x := by
  show List.dropWhile (fun c => ['-', ' '].contains c) ('-' :: ' ' :: x) = x
  rw [List.dropWhile_cons, List.dropWhile_cons]
  simp only [show (['-', ' '].contains '-') = true from rfl,
    show (['-', ' '].contains ' ') = true from rfl, if_true]
  cases hlc : x with
  | nil => rfl
  | cons a as =>
    subst hlc
    have ha : alnumChar a = true := List.all_eq_true.mp hx a (by simp)
    have hmem : (['-', ' '].contains a) = false := by
      cases hq : ['-', ' '].contains a
      · rfl
      · exfalso
        obtain ⟨b, hb1, hb2⟩ := List.contains_iff_exists_mem_beq.mp hq
        rw [beq_iff_eq] at hb2
        subst hb2
        rcases List.mem_cons.mp hb1 with rfl | h3
        · exact absurd ha (by decide)
        · rcases List.mem_cons.mp h3 with rfl | h4
          · exact absurd ha (by decide)
          · simp at h4
    rw [List.dropWhile_cons, hmem]
    simp

theorem frag_step_title (st : RefMdState) (T : Str) (hT : alnumStr T = true)
    (hTne : T ≠ []) :
    refMdStep st ("**Title**: ".toList ++ T) = { st with title := pyLower T } := by
  have hstrip : pyStrip ("**Title**: ".toList ++ T) = "**Title**: ".toList ++ T := by
    show pyStrip ('*' :: ("*Title**: ".toList ++ T)) = '*' :: ("*Title**: ".toList ++ T)
    exact pyStrip_star_line ("*Title**: ".toList) T hT hTne
  have hlow : pyLower (pyStrip ("**Title**: ".toList ++ T)) =
      "**title**: ".toList ++ pyLower T := by
    rw [hstrip]
    rfl
  have hc1 : pyStartswith "**title**:".toList ("**title**: ".toList ++ pyLower T) = true := rfl
  unfold refMdStep
  simp only [hlow, hc1, eq_self_iff_true, if_true]
  rw [show afterFirst ':' ("**title**: ".toList ++ pyLower T) = ' ' :: pyLower T from rfl,
    pyStrip_space_cons (pyLower T)
      (pyStrip_of_no_space _ (no_space_of_alnum _ (alnumStr_pyLower T hT)))]

theorem frag_step_desc (st : RefMdState) (D : Str) (hD : alnumStr D = true)
    (hDne : D ≠ []) :
    refMdStep st ("**Description**: ".toList ++ D) =
      { st with description := pyLower D } := by
  have hstrip : pyStrip ("**Description**: ".toList ++ D) = "**Description**: ".toList ++ D := by
    show pyStrip ('*' :: ("*Description**: ".toList ++ D)) =
      '*' :: ("*Description**: ".toList ++ D)
    exact pyStrip_star_line ("*Description**: ".toList) D hD hDne
  have hlow : pyLower (pyStrip ("**Description**: ".toList ++ D)) =
      "**description**: ".toList ++ pyLower D := by
    rw [hstrip]
    rfl
  have hc1 : pyStartswith "**title**:".toList ("**description**: ".toList ++ pyLower D) = false := rfl
  have hc2 : pyStartswith "**description**:".toList
    ("**description**: ".toList ++ pyLower D) = true := rfl
  unfold refMdStep
  simp only [hlow, hc1, hc2, Bool.false_eq_true, if_false, eq_self_iff_true, if_true]
  rw [show afterFirst ':' ("**description**: ".toList ++ pyLower D) = ' ' :: pyLower D from rfl,
    pyStrip_space_cons (pyLower D)
      (pyStrip_of_no_space _ (no_space_of_alnum _ (alnumStr_pyLower D hD)))]

theorem frag_step_acheader (st : RefMdState) :
    refMdStep st "**Acceptance Criteria**:".toList = { st with inAcSection := true } := rfl

theorem frag_step_bullet (st : RefMdState) (c : Str) (hc : alnumStr c = true)
    (hcne : c ≠ []) (hsec : st.inAcSection = true) :
    refMdStep st ("- ".toList ++ c) =
      { st with acceptance_criteria := st.acceptance_criteria ++ [pyLower c] } := by
  have hlow : pyLower (pyStrip ("- ".toList ++ c)) = '-' :: ' ' :: pyLower c := by
    rw [pyStrip_bullet c hc hcne]
    rfl
  have hc1 : pyStartswith "**title**:".toList ('-' :: ' ' :: pyLower c) = false := rfl
  have hc2 : pyStartswith "**description**:".toList ('-' :: ' ' :: pyLower c) = false := rfl
  have hc3 : pyStartswith "**acceptance criteria**:".toList ('-' :: ' ' :: pyLower c) = false := rfl
  have hc4 : pyStartswith "-".toList ('-' :: ' ' :: pyLower c) = true := rfl
  unfold refMdStep
  simp only [hlow, hc1, hc2, hc3, hc4, hsec, Bool.false_eq_true, if_false,
    Bool.and_self, eq_self_iff_true, if_true]
  rw [show pyLstripChars ['-', ' '] ('-' :: ' ' :: pyLower c) = pyLower c from
      pyLstripChars_dash_space (pyLower c) (alnumStr_pyLower c hc),
    pyStrip_of_no_space _ (no_space_of_alnum _ (alnumStr_pyLower c hc))]

theorem frag_step_empty_nosec (st : RefMdState) (hsec : st.inAcSection = false) :
    refMdStep st [] = st := by
  unfold refMdStep
  rw [if_neg (by decide), if_neg (by decide), if_neg (by decide)]
  rw [show pyStartswith "-".toList (pyLower (pyStrip ([] : Str))) = false from rfl,
    Bool.and_false, Bool.not_false, Bool.and_true, hsec]
  rw [if_neg Bool.false_ne_true, if_neg Bool.false_ne_true]

theorem frag_step_empty_sec (st : RefMdState) (hsec : st.inAcSection = true) :
    refMdStep st [] = { st with inAcSection := false } := by
  unfold refMdStep
  rw [if_neg (by decide), if_neg (by decide), if_neg (by decide)]
  rw [show pyStartswith "-".toList (pyLower (pyStrip ([] : Str))) = false from rfl,
    Bool.and_false, Bool.not_false, Bool.and_true, hsec]
  rw [if_neg Bool.false_ne_true, if_pos rfl]

theorem frag_step_reply (st : RefMdState) (hsec : st.inAcSection = false) :
    refMdStep st " Reply \"/apply\" to apply these updates.".toList = st := by
  unfold refMdStep
  rw [if_neg (by decide), if_neg (by decide), if_neg (by decide)]
  rw [show pyStartswith "-".toList
      (pyLower (pyStrip (" Reply \"/apply\" to apply these updates.".toList))) = false
    from rfl, Bool.and_false, Bool.not_false, Bool.and_true, hsec]
  rw [if_neg Bool.false_ne_true, if_neg Bool.false_ne_true]

theorem no_break_append (a b : Str) (ha : ∀ c ∈ a, isLineBreak c = false)
    (hb : ∀ c ∈ b, isLineBreak c = false) :
    ∀ c ∈ a ++ b, isLineBreak c = false := by
  intro c hc
  rcases List.mem_append.mp hc with h | h
  · exact ha c h
  · exact hb c h

theorem no_break_emoji (b : Bool) : ∀ c ∈ ynEmoji b, isLineBreak c = false := by
  cases b <;> decide

theorem no_break_join (ls : List Str) (h : ∀ l ∈ ls, ∀ c ∈ l, isLineBreak c = false) :
    ∀ c ∈ pyJoin ", ".toList ls, isLineBreak c = false := by
  induction ls with
  | nil => intro c hc; simp [pyJoin, List.intercalate] at hc
  | cons l ls ih =>
    cases ls with
    | nil =>
      rw [pyJoin_single]
      exact h l (by simp)
    | cons l2 ls2 =>
      rw [pyJoin_cons_cons2]
      refine no_break_append _ _ (no_break_append _ _ (h l (by simp)) (by decide)) ?_
      exact ih (fun x hx => h x (by simp [hx]))

theorem pyJoin_cons_of_ne (sep x : Str) (ys : List Str) (h : ys ≠ []) :
    pyJoin sep (x :: ys) = x ++ sep ++ pyJoin sep ys := by
  cases ys with
  | nil => exact absurd rfl h
  | cons y ys2 => exact pyJoin_cons_cons2 sep x y ys2

theorem pySplitlines_newline_cons (rest : List Char) :
    pySplitlines ('\n' :: rest) = [] :: pySplitlines rest := rfl

theorem splitlines_encCommon (S I A : Str) (b1 b2 b3 b4 : Bool) (ls : List Str)
    (rest : List Char)
    (hS : ∀ c ∈ S, isLineBreak c = false)
    (hI : ∀ c ∈ I, isLineBreak c = false)
    (hA : ∀ c ∈ A, isLineBreak c = false)
    (hls : ∀ l ∈ ls, ∀ c ∈ l, isLineBreak c = false) :
    pySplitlines (encCommonChain S I A b1 b2 b3 b4 ls rest) =
      encCommonLines S I A b1 b2 b3 b4 ls ++ pySplitlines rest := by
  unfold encCommonChain encCommonLines
  rw [pySplitlines_append _ _ (by decide),
    pySplitlines_append _ _ (no_break_append _ _ (by decide) hS),
    pySplitlines_append _ _ (by decide),
    pySplitlines_append _ _ (no_break_append _ _ (by decide) (no_break_emoji b1)),
    pySplitlines_newline_cons,
    pySplitlines_append _ _ (no_break_append _ _ (by decide) (no_break_emoji b2)),
    pySplitlines_newline_cons,
    pySplitlines_append _ _ (no_break_append _ _ (by decide) (no_break_emoji b3)),
    pySplitlines_newline_cons, pySplitlines_newline_cons,
    pySplitlines_append _ _ (no_break_append _ _ (by decide) hI),
    pySplitlines_newline_cons, pySplitlines_newline_cons,
    pySplitlines_append _ _ (no_break_append _ _ (by decide) hA),
    pySplitlines_newline_cons, pySplitlines_newline_cons,
    pySplitlines_append _ _ (no_break_append _ _ (by decide) (no_break_join ls hls)),
    pySplitlines_newline_cons, pySplitlines_newline_cons,
    pySplitlines_append _ _ (no_break_append _ _ (by decide) (no_break_emoji b4))]
  rfl

theorem fold_encCommon (S I A : Str) (b1 b2 b3 b4 : Bool) (ls : List Str)
    (hS : pyStrip S = S) (hI : pyStrip I = I) (hA : pyStrip A = A)
    (hls : ∀ l ∈ ls, wfLabel l) :
    (encCommonLines S I A b1 b2 b3 b4 ls).foldl evalMdStep EvalMdState.init =
      ⟨S, b1, b2, b3, I, A, ls, b4, false, [], false⟩ := by
  unfold encCommonLines
  simp only [List.foldl_cons, List.foldl_nil]
  simp only [EvalMdState.init, eval_step_heading, eval_step_summary _ _ hS,
    eval_step_completeness, eval_step_flag_title, eval_step_empty_out,
    eval_step_flag_desc, eval_step_flag_ac, eval_step_importance _ _ hI,
    eval_step_ace _ _ hA, eval_step_labels _ _ hls, eval_step_ready]

theorem no_break_bullet (c : Str) (hc : alnumStr c = true) :
    ∀ x ∈ "- ".toList ++ c, isLineBreak x = false :=
  no_break_append _ _ (by decide) (no_break_of_alnum c hc)

theorem pySplitlines_join_run (x : Str) (bs : List Str) (rest : List Char)
    (hb : ∀ l ∈ x :: bs, ∀ c ∈ l, isLineBreak c = false) :
    pySplitlines (pyJoin "\n".toList (x :: bs) ++ '\n' :: rest) =
      (x :: bs) ++ pySplitlines rest := by
  induction bs generalizing x with
  | nil =>
    rw [pyJoin_single, pySplitlines_append _ _ (hb x (by simp))]
    rfl
  | cons y bs2 ih =>
    rw [pyJoin_cons_cons, List.append_assoc, List.cons_append,
      pySplitlines_append _ _ (hb x (by simp)),
      ih y (fun l hl => hb l (List.mem_cons_of_mem x hl))]
    rfl

theorem pySplitlines_pyJoin (x : Str) (ls : List Str)
    (hb : ∀ l ∈ x :: ls, ∀ c ∈ l, isLineBreak c = false)
    (hlast : (x :: ls).getLast? ≠ some []) :
    pySplitlines (pyJoin "\n".toList (x :: ls)) = x :: ls := by
  induction ls generalizing x with
  | nil =>
    have hne : x ≠ [] := by
      intro h
      exact hlast (by rw [h]; rfl)
    rw [pyJoin_single]
    exact pySplitlines_single x (hb x (by simp)) hne
  | cons y ls2 ih =>
    rw [pyJoin_cons_cons, pySplitlines_append x _ (hb x (by simp)),
      ih y (fun l hl => hb l (List.mem_cons_of_mem x hl))
        (fun h => hlast (by rw [List.getLast?_cons_cons]; exact h))]

theorem getLast?_append_pair (xs : List Str) (u v : Str) :
    (xs ++ [u, v]).getLast? = some v := by
  rw [List.getLast?_append]
  rfl

theorem fold_bullets (cs : List Str) (st : EvalMdState)
    (h : ∀ x ∈ cs, x ≠ [] ∧ alnumStr x = true) (hin : st.in_refactored = true) :
    (cs.map (fun x => "- ".toList ++ x)).foldl evalMdStep st =
      { st with refactored_md :=
          st.refactored_md ++ cs.map (fun x => "- ".toList ++ x) } := by
  induction cs generalizing st with
  | nil =>
    cases st
    simp
  | cons c cs2 ih =>
    simp only [List.map_cons, List.foldl_cons]
    rw [eval_step_bullet st c (h c (by simp)).2 (h c (by simp)).1 hin,
      ih { st with refactored_md := st.refactored_md ++ ["- ".toList ++ c] }
        (fun x hx => h x (List.mem_cons_of_mem c hx)) hin]
    simp [List.append_assoc]

theorem fold_frag_bullets (cs : List Str) (st : RefMdState)
    (h : ∀ x ∈ cs, x ≠ [] ∧ alnumStr x = true) (hsec : st.inAcSection = true) :
    (cs.map (fun x => "- ".toList ++ x)).foldl refMdStep st =
      { st with acceptance_criteria := st.acceptance_criteria ++ cs.map pyLower } := by
  induction cs generalizing st with
  | nil =>
    cases st
    simp
  | cons c cs2 ih =>
    simp only [List.map_cons, List.foldl_cons]
    rw [frag_step_bullet st c (h c (by simp)).2 (h c (by simp)).1 hsec,
      ih { st with acceptance_criteria := st.acceptance_criteria ++ [pyLower c] }
        (fun x hx => h x (List.mem_cons_of_mem c hx)) hsec]
    simp [List.append_assoc]

theorem fragLines_no_break (T D : Str) (cs : List Str)
    (hTa : alnumStr T = true) (hDa : alnumStr D = true)
    (hcs : ∀ x ∈ cs, x ≠ [] ∧ alnumStr x = true) :
    ∀ l ∈ fragLines T D cs, ∀ c ∈ l, isLineBreak c = false := by
  intro l hl
  simp only [fragLines, List.mem_cons, List.mem_append, List.mem_map,
    List.mem_singleton, List.not_mem_nil] at hl
  rcases hl with rfl | rfl | rfl | rfl | rfl | ⟨x, hx, rfl⟩ | rfl | rfl | h
  · exact no_break_append _ _ (by decide) (no_break_of_alnum T hTa)
  · intro c hc
    simp at hc
  · exact no_break_append _ _ (by decide) (no_break_of_alnum D hDa)
  · intro c hc
    simp at hc
  · decide
  · exact no_break_bullet x (hcs x hx).2
  · intro c hc
    simp at hc
  · decide
  · exact h.elim

theorem fragment_decode (T D : Str) (cs : List Str)
    (hTne : T ≠ []) (hTa : alnumStr T = true)
    (hDne : D ≠ []) (hDa : alnumStr D = true)
    (hcs : ∀ x ∈ cs, x ≠ [] ∧ alnumStr x = true) :
    UserStoryRefactored.from_markdown (pyJoin "\n".toList (fragLines T D cs)) =
      ⟨pyLower T, pyLower D, some (cs.map pyLower)⟩ := by
  have hlast : (fragLines T D cs).getLast? ≠ some [] := by
    have h5 : fragLines T D cs =
        (("**Title**: ".toList ++ T) :: [] :: ("**Description**: ".toList ++ D) :: [] ::
          "**Acceptance Criteria**:".toList :: cs.map (fun x => "- ".toList ++ x)) ++
         [[], " Reply \"/apply\" to apply these updates.".toList] := by
      simp [fragLines]
    rw [h5, getLast?_append_pair]
    simp
  have hsplit : pySplitlines (pyJoin "\n".toList (fragLines T D cs)) = fragLines T D cs :=
    pySplitlines_pyJoin _ _ (fragLines_no_break T D cs hTa hDa hcs) hlast
  simp only [UserStoryRefactored.from_markdown]
  rw [hsplit]
  simp only [fragLines, List.foldl_cons, List.foldl_append, List.foldl_nil]
  simp only [frag_step_title _ _ hTa hTne, frag_step_empty_nosec,
    frag_step_desc _ _ hDa hDne, frag_step_acheader, fold_frag_bullets _ _ hcs,
    frag_step_empty_sec, frag_step_reply]
  simp

theorem c1_decode_ready (r : UserStoryEvalResponse)
    (hS : wfText r.summary) (hI : wfText r.importance)
    (hA : wfText r.acceptance_criteria_evaluation)
    (hls : ∀ l ∈ r.labels, wfLabel l)
    (h1 : r.ready_to_work = true) :
    UserStoryEvalResponse.from_markdown (UserStoryEvalResponse.to_markdown r) =
      ⟨r.summary, r.title_complete, r.description_complete,
       r.acceptance_criteria_complete, r.importance,
       r.acceptance_criteria_evaluation, r.labels, r.ready_to_work, false,
       UserStoryRefactored.empty⟩ := by
  have hls1 : ∀ l ∈ r.labels, ∀ c ∈ l, isLineBreak c = false :=
    fun l hl => ((hls l hl).1).1
  have htext : UserStoryEvalResponse.to_markdown r =
      encCommonChain r.summary r.importance r.acceptance_criteria_evaluation
        r.title_complete r.description_complete r.acceptance_criteria_complete
        r.ready_to_work r.labels [] := by
    simp only [UserStoryEvalResponse.to_markdown, h1, Bool.not_true, Bool.false_and,
      Bool.false_eq_true, if_false, List.append_nil]
    rw [pyJoin_cons_cons, pyJoin_cons_cons, pyJoin_cons_cons, pyJoin_cons_cons,
      pyJoin_cons_cons, pyJoin_cons_cons, pyJoin_cons_cons, pyJoin_cons_cons,
      pyJoin_cons_cons, pyJoin_single]
    simp [encCommonChain, List.append_assoc]
  simp only [UserStoryEvalResponse.from_markdown]
  rw [htext,
    splitlines_encCommon _ _ _ _ _ _ _ _ [] hS.1 hI.1 hA.1 hls1,
    show pySplitlines [] = [] from rfl, List.append_nil,
    fold_encCommon _ _ _ _ _ _ _ _ hS.2 hI.2 hA.2 hls]
  simp [mkResponse, UserStoryRefactored.empty]

set_option maxRecDepth 8192 in
theorem c1_decode_unclear (r : UserStoryEvalResponse)
    (hS : wfText r.summary) (hI : wfText r.importance)
    (hA : wfText r.acceptance_criteria_evaluation)
    (hls : ∀ l ∈ r.labels, wfLabel l)
    (h1 : r.ready_to_work = false) (h2 : r.base_story_not_clear = true) :
    UserStoryEvalResponse.from_markdown (UserStoryEvalResponse.to_markdown r) =
      ⟨r.summary, r.title_complete, r.description_complete,
       r.acceptance_criteria_complete, r.importance,
       r.acceptance_criteria_evaluation, r.labels, r.ready_to_work, true,
       UserStoryRefactored.empty⟩ := by
  have hls1 : ∀ l ∈ r.labels, ∀ c ∈ l, isLineBreak c = false :=
    fun l hl => ((hls l hl).1).1
  have htext : UserStoryEvalResponse.to_markdown r =
      encCommonChain r.summary r.importance r.acceptance_criteria_evaluation
        r.title_complete r.description_complete r.acceptance_criteria_complete
        r.ready_to_work r.labels ('\n' :: '\n' :: noteLine) := by
    simp only [UserStoryEvalResponse.to_markdown, h1, h2, Bool.not_false, Bool.true_and,
      Bool.not_true, Bool.false_eq_true, if_false, List.append_nil,
      eq_self_iff_true, if_true]
    simp only [List.cons_append, List.nil_append]
    rw [pyJoin_cons_cons, pyJoin_cons_cons, pyJoin_cons_cons, pyJoin_cons_cons,
      pyJoin_cons_cons, pyJoin_cons_cons, pyJoin_cons_cons, pyJoin_cons_cons,
      pyJoin_cons_cons, pyJoin_cons_cons, pyJoin_single]
    simp [encCommonChain, unclearNote, noteLine, List.append_assoc]
  have hrest : pySplitlines ('\n' :: '\n' :: noteLine) = [[], [], noteLine] := by
    rw [pySplitlines_newline_cons, pySplitlines_newline_cons,
      pySplitlines_single noteLine (by decide) (by decide)]
  simp only [UserStoryEvalResponse.from_markdown]
  rw [htext,
    splitlines_encCommon _ _ _ _ _ _ _ _ _ hS.1 hI.1 hA.1 hls1, hrest,
    List.foldl_append, fold_encCommon _ _ _ _ _ _ _ _ hS.2 hI.2 hA.2 hls]
  simp only [List.foldl_cons, List.foldl_nil, eval_step_empty_out, eval_step_note]
  simp [mkResponse, UserStoryRefactored.empty]

theorem c1_decode_refactor (r : UserStoryEvalResponse)
    (hS : wfText r.summary) (hI : wfText r.importance)
    (hA : wfText r.acceptance_criteria_evaluation)
    (hls : ∀ l ∈ r.labels, wfLabel l)
    (h1 : r.ready_to_work = false) (h2 : r.base_story_not_clear = false)
    (hTne : r.refactored.title ≠ []) (hTa : alnumStr r.refactored.title = true)
    (hDne : r.refactored.description ≠ [])
    (hDa : alnumStr r.refactored.description = true)
    (c0 : Str) (cs0 : List Str)
    (hcs : r.refactored.acceptance_criteria = some (c0 :: cs0))
    (hcsa : ∀ x ∈ c0 :: cs0, x ≠ [] ∧ alnumStr x = true) :
    UserStoryEvalResponse.from_markdown (UserStoryEvalResponse.to_markdown r) =
      ⟨r.summary, r.title_complete, r.description_complete,
       r.acceptance_criteria_complete, r.importance,
       r.acceptance_criteria_evaluation, r.labels, r.ready_to_work, false,
       ⟨pyLower r.refactored.title, pyLower r.refactored.description,
        some ((c0 :: cs0).map pyLower)⟩⟩ := by
  have hls1 : ∀ l ∈ r.labels, ∀ c ∈ l, isLineBreak c = false :=
    fun l hl => ((hls l hl).1).1
  have hbody : r.refactored.body_markdown =
      ("**Description**: ".toList ++ r.refactored.description ++ "\n".toList) ++ '\n' ::
      ("**Acceptance Criteria**:".toList ++ '\n' ::
        pyJoin "\n".toList ((c0 :: cs0).map (fun c => "- ".toList ++ c))) := by
    simp only [UserStoryRefactored.body_markdown, hcs]
    rw [if_pos hDne]
    simp only [show optListTruthy (some (c0 :: cs0)) = true from rfl,
      eq_self_iff_true, if_true, Option.getD_some]
    rw [List.singleton_append, pyJoin_cons_cons,
      pyJoin_cons_of_ne _ _ _ (by simp)]
    simp [List.append_assoc]
  have htitle : r.refactored.to_markdown =
      ("**Title**: ".toList ++ r.refactored.title ++ "\n".toList) ++ '\n' ::
        r.refactored.body_markdown := by
    simp only [UserStoryRefactored.to_markdown]
    rw [if_pos hTne, if_pos (show r.refactored.body_markdown ≠ [] from by
      rw [hbody]
      simp)]
    rw [List.singleton_append, pyJoin_cons_cons, pyJoin_single]
  have htext : UserStoryEvalResponse.to_markdown r =
      encCommonChain r.summary r.importance r.acceptance_criteria_evaluation
        r.title_complete r.description_complete r.acceptance_criteria_complete
        r.ready_to_work r.labels
        ('\n' :: '\n' :: ("### Refactored Story".toList ++ '\n' ::
          (("**Title**: ".toList ++ r.refactored.title) ++ '\n' :: ('\n' ::
          (("**Description**: ".toList ++ r.refactored.description) ++ '\n' :: ('\n' ::
          ("**Acceptance Criteria**:".toList ++ '\n' ::
          (pyJoin "\n".toList ((c0 :: cs0).map (fun c => "- ".toList ++ c)) ++ '\n' ::
          ('\n' :: (" Reply \"/apply\" to apply these updates.".toList ++
            '\n' :: [])))))))))) := by
    simp only [UserStoryEvalResponse.to_markdown, h1, h2, Bool.not_false, Bool.true_and,
      Bool.false_eq_true, if_false, List.append_nil, eq_self_iff_true, if_true]
    simp only [List.cons_append, List.nil_append]
    rw [pyJoin_cons_cons, pyJoin_cons_cons, pyJoin_cons_cons, pyJoin_cons_cons,
      pyJoin_cons_cons, pyJoin_cons_cons, pyJoin_cons_cons, pyJoin_cons_cons,
      pyJoin_cons_cons, pyJoin_cons_cons, pyJoin_cons_cons, pyJoin_cons_cons,
      pyJoin_single]
    rw [htitle, hbody]
    simp [encCommonChain, List.append_assoc]
  have hrest : pySplitlines ('\n' :: '\n' :: ("### Refactored Story".toList ++ '\n' ::
        (("**Title**: ".toList ++ r.refactored.title) ++ '\n' :: ('\n' ::
        (("**Description**: ".toList ++ r.refactored.description) ++ '\n' :: ('\n' ::
        ("**Acceptance Criteria**:".toList ++ '\n' ::
        (pyJoin "\n".toList ((c0 :: cs0).map (fun c => "- ".toList ++ c)) ++ '\n' ::
        ('\n' :: (" Reply \"/apply\" to apply these updates.".toList ++
          '\n' :: [])))))))))) =
      [[], [], "### Refactored Story".toList] ++
        fragLines r.refactored.title r.refactored.description (c0 :: cs0) := by
    rw [pySplitlines_newline_cons, pySplitlines_newline_cons,
      pySplitlines_append _ _ (by decide),
      pySplitlines_append _ _
        (no_break_append _ _ (by decide) (no_break_of_alnum _ hTa)),
      pySplitlines_newline_cons,
      pySplitlines_append _ _
        (no_break_append _ _ (by decide) (no_break_of_alnum _ hDa)),
      pySplitlines_newline_cons,
      pySplitlines_append _ _ (by decide),
      List.map_cons,
      pySplitlines_join_run _ _ _ (by
        intro l hl
        rcases List.mem_cons.mp hl with rfl | hl2
        · exact no_break_bullet c0 (hcsa c0 (by simp)).2
        · obtain ⟨x, hx, rfl⟩ := List.mem_map.mp hl2
          exact no_break_bullet x (hcsa x (by simp [hx])).2),
      pySplitlines_newline_cons,
      pySplitlines_append _ _ (by decide),
      show pySplitlines [] = [] from rfl]
    simp [fragLines, List.append_assoc]
  have hfold : List.foldl evalMdStep
      ⟨r.summary, r.title_complete, r.description_complete,
       r.acceptance_criteria_complete, r.importance,
       r.acceptance_criteria_evaluation, r.labels, r.ready_to_work, false, [], false⟩
      ([[], [], "### Refactored Story".toList] ++
        fragLines r.refactored.title r.refactored.description (c0 :: cs0)) =
      ⟨r.summary, r.title_complete, r.description_complete,
       r.acceptance_criteria_complete, r.importance,
       r.acceptance_criteria_evaluation, r.labels, r.ready_to_work, false,
       fragLines r.refactored.title r.refactored.description (c0 :: cs0), true⟩ := by
    simp only [fragLines, List.cons_append, List.nil_append]
    simp only [List.foldl_cons, List.foldl_append, List.foldl_nil]
    simp only [eval_step_empty_out, eval_step_refheader, eval_step_title_ref _ _ hTa,
      eval_step_empty_in, eval_step_desc_ref _ _ hDa, eval_step_acheader,
      fold_bullets _ _ hcsa, eval_step_reply]
    simp [List.append_assoc]
  have hne : fragLines r.refactored.title r.refactored.description (c0 :: cs0) ≠ [] := by
    simp [fragLines]
  simp only [UserStoryEvalResponse.from_markdown]
  rw [htext,
    splitlines_encCommon _ _ _ _ _ _ _ _ _ hS.1 hI.1 hA.1 hls1, hrest,
    List.foldl_append, fold_encCommon _ _ _ _ _ _ _ _ hS.2 hI.2 hA.2 hls, hfold]
  simp [mkResponse, hne]
  rw [show pyJoin ['\n'] (fragLines r.refactored.title r.refactored.description (c0 :: cs0)) =
      pyJoin "\n".toList (fragLines r.refactored.title r.refactored.description (c0 :: cs0))
    from rfl,
    fragment_decode _ _ _ hTne hTa hDne hDa hcsa]
  simp

/-- Claim C1, counterexample to the literal statement: for the well-formed
record with refactored story ⟨"Title", "Desc", ["Crit"]⟩ the round trip
`from_markdown (to_markdown r)` returns refactored title "title" — the
lowercased form, because `UserStoryRefactored.from_markdown` splits
`line.strip().lower()` (response_models.py line 31) — which differs from the
original "Title", so the refactored fields are not reproduced verbatim. -/
theorem c1_counterexample :
    (UserStoryEvalResponse.from_markdown (UserStoryEvalResponse.to_markdown
        ⟨"S".toList, true, true, true, "I".toList, "E".toList, [], false, false,
         ⟨"Title".toList, "Desc".toList, some ["Crit".toList]⟩⟩)).refactored.title
      = "title".toList ∧ "title".toList ≠ "Title".toList := by
  decide

/-- Claim C1 (amended): for every well-formed record, decoding the encoded
markdown reproduces summary, the three completeness flags, importance,
acceptance-criteria evaluation, labels and ready_to_work verbatim, and — when
the refactored story is emitted, i.e. `ready_to_work = false` and
`base_story_not_clear = false` — the decoded refactored story is the
ASCII-lowercasing of the original (title, description and acceptance
criteria all mapped through `str.lower`), not the original itself. -/
theorem c1_roundtrip_lower (r : UserStoryEvalResponse) (hwf : wfRecord r) :
    (UserStoryEvalResponse.from_markdown (UserStoryEvalResponse.to_markdown r)).summary
        = r.summary ∧
    (UserStoryEvalResponse.from_markdown (UserStoryEvalResponse.to_markdown r)).title_complete
        = r.title_complete ∧
    (UserStoryEvalResponse.from_markdown (UserStoryEvalResponse.to_markdown r)).description_complete
        = r.description_complete ∧
    (UserStoryEvalResponse.from_markdown (UserStoryEvalResponse.to_markdown r)).acceptance_criteria_complete
        = r.acceptance_criteria_complete ∧
    (UserStoryEvalResponse.from_markdown (UserStoryEvalResponse.to_markdown r)).importance
        = r.importance ∧
    (UserStoryEvalResponse.from_markdown (UserStoryEvalResponse.to_markdown r)).acceptance_criteria_evaluation
        = r.acceptance_criteria_evaluation ∧
    (UserStoryEvalResponse.from_markdown (UserStoryEvalResponse.to_markdown r)).labels
        = r.labels ∧
    (UserStoryEvalResponse.from_markdown (UserStoryEvalResponse.to_markdown r)).ready_to_work
        = r.ready_to_work ∧
    (r.ready_to_work = false → r.base_story_not_clear = false →
      (UserStoryEvalResponse.from_markdown (UserStoryEvalResponse.to_markdown r)).refactored
        = lowerStory r.refactored) := by
  obtain ⟨hS, hI, hA, hls, href⟩ := hwf
  cases h1 : r.ready_to_work with
  | true =>
    rw [c1_decode_ready r hS hI hA hls h1]
    refine ⟨rfl, rfl, rfl, rfl, rfl, rfl, rfl, h1, ?_⟩
    intro h1f _
    exact Bool.noConfusion h1f
  | false =>
    cases h2 : r.base_story_not_clear with
    | true =>
      rw [c1_decode_unclear r hS hI hA hls h1 h2]
      refine ⟨rfl, rfl, rfl, rfl, rfl, rfl, rfl, h1, ?_⟩
      intro _ h2f
      exact Bool.noConfusion h2f
    | false =>
      obtain ⟨hTne, hTa, hDne, hDa, cs, hcs, hcsne, hcsa⟩ := href h1 h2
      rcases cs with _ | ⟨c0, cs0⟩
      · exact absurd rfl hcsne
      · rw [c1_decode_refactor r hS hI hA hls h1 h2 hTne hTa hDne hDa c0 cs0 hcs hcsa]
        refine ⟨rfl, rfl, rfl, rfl, rfl, rfl, rfl, h1, ?_⟩
        intro _ _
        simp [lowerStory, hcs]

/-- Witness for `c1_roundtrip_lower`: a concrete record with labels and a
two-criteria refactored story is well-formed, and applying the theorem to it
yields in particular the lowercased refactored story. -/
theorem c1_witness :
    wfRecord ⟨"S".toList, true, false, true, "I".toList, "E".toList,
      ["bug".toList, "ui".toList], false, false,
      ⟨"Title".toList, "Desc".toList, some ["Crit1".toList, "Crit2".toList]⟩⟩ ∧
    (UserStoryEvalResponse.from_markdown (UserStoryEvalResponse.to_markdown
        ⟨"S".toList, true, false, true, "I".toList, "E".toList,
         ["bug".toList, "ui".toList], false, false,
         ⟨"Title".toList, "Desc".toList,
          some ["Crit1".toList, "Crit2".toList]⟩⟩)).refactored
      = lowerStory ⟨"Title".toList, "Desc".toList,
          some ["Crit1".toList, "Crit2".toList]⟩ := by
  have hwf : wfRecord ⟨"S".toList, true, false, true, "I".toList, "E".toList,
      ["bug".toList, "ui".toList], false, false,
      ⟨"Title".toList, "Desc".toList, some ["Crit1".toList, "Crit2".toList]⟩⟩ :=
    ⟨⟨by decide, by decide⟩, ⟨by decide, by decide⟩, ⟨by decide, by decide⟩,
     by
       simp only [wfLabel, wfText]
       decide,
     fun _ _ => ⟨by decide, by decide, by decide, by decide,
       ["Crit1".toList, "Crit2".toList], rfl, by decide, by decide⟩⟩
  exact ⟨hwf,
    (c1_roundtrip_lower _ hwf).2.2.2.2.2.2.2.2 rfl rfl⟩

/-- Claim C4 (code bug): transport-level transient failures (HTTP 502/503)
behave as claimed — two failures then success gives exactly the backoff
sleeps `[2, 4]` and the data, and three failures give a fatal exit after 3
queries — but a rate-limited failure reported in the GraphQL `errors`
payload, equally classified transient by the source, is *not* retried: the
`continue` at graphql_client.py line 98 binds to the inner `for error` loop,
so after printing "retrying in 2s..." and sleeping once the code exits
fatally having issued a single query, never re-executing it. -/
theorem c4_transient_retry_divergence :
    GraphQLExecutor.execute
        (fun n => if n = 0 then .githubExc 502
          else if n = 1 then .githubExc 503 else .ok 7 none) =
      .returned 7 [2, 4] 3 ∧
    GraphQLExecutor.execute (fun _ => .githubExc 503) = .fatal [2, 4] 3 ∧
    GraphQLExecutor.execute (fun _ => .ok 7 (some ["RATE_LIMITED".toList])) =
      .fatal [2] 1 := by
  refine ⟨?_, ?_, ?_⟩ <;> decide

/-- Claim C5: an authentication or permission failure (status 401 or 403) on
the first attempt terminates the process fatally at once — zero sleeps, one
query; an unexpected (unclassified) exception is retried exactly once after
a 2s sleep, fatally if it recurs and successfully if the retry returns
data. -/
theorem c5_auth_fatal_unexpected_once :
    (∀ (outcome : Nat → QueryOutcome) (status : Int),
        (status = 401 ∨ status = 403) → outcome 0 = .githubExc status →
        GraphQLExecutor.execute outcome = .fatal [] 1) ∧
    (∀ outcome : Nat → QueryOutcome,
        outcome 0 = .unexpectedExc → outcome 1 = .unexpectedExc →
        GraphQLExecutor.execute outcome = .fatal [2] 2) ∧
    (∀ (outcome : Nat → QueryOutcome) (p : Nat),
        outcome 0 = .unexpectedExc → outcome 1 = .ok p none →
        GraphQLExecutor.execute outcome = .returned p [2] 2) := by
  refine ⟨?_, ?_, ?_⟩
  · intro outcome status hs h0
    simp only [GraphQLExecutor.execute, executeLoop, h0]
    rw [if_pos hs]
  · intro outcome h0 h1
    simp [GraphQLExecutor.execute, executeLoop, h0, h1]
  · intro outcome p h0 h1
    simp [GraphQLExecutor.execute, executeLoop, h0, h1]

/-- Claim C5, witness: the three parts instantiated at concrete injected
outcome sequences. -/
theorem c5_witness :
    GraphQLExecutor.execute (fun _ => .githubExc 401) = .fatal [] 1 ∧
    GraphQLExecutor.execute (fun _ => .unexpectedExc) = .fatal [2] 2 ∧
    GraphQLExecutor.execute (fun n => if n = 0 then .unexpectedExc else .ok 5 none) =
      .returned 5 [2] 2 :=
  ⟨c5_auth_fatal_unexpected_once.1 (fun _ => .githubExc 401) 401 (Or.inl rfl) rfl,
   c5_auth_fatal_unexpected_once.2.1 (fun _ => .unexpectedExc) rfl rfl,
   c5_auth_fatal_unexpected_once.2.2 (fun n => if n = 0 then .unexpectedExc else .ok 5 none)
     5 rfl rfl⟩

theorem scanDisabled_append (dm : Str) (a b : List CommentNode) :
    scanDisabled dm (a ++ b) = (scanDisabled dm a || scanDisabled dm b) := by
  simp [scanDisabled, List.any_append]

theorem scanAi_append (am : Str) (a b : List CommentNode) :
    scanAi am (a ++ b) = (scanAi am a || scanAi am b) := by
  simp [scanAi, List.any_append]

/-- Claim C6: when the initial snapshot is not truncated,
`paginate_issue_comments` returns it unchanged having made zero
`graphql_fetch_issue` calls — in particular no cursor re-fetch of page 1. -/
theorem c6_untruncated_zero_fetches :
    ∀ (fetch : Nat → Option Str → IssueSnapshot × RawPageInfo) (fuel : Nat)
      (snap : IssueSnapshot) (dm am : Str),
      snap.had_truncated = false →
      paginate_issue_comments fetch fuel snap dm am = .ok (snap, 0) := by
  intro fetch fuel snap dm am h
  simp [paginate_issue_comments, h]

/-- Claim C6, witness: the untruncated hypothesis discharged on a concrete
snapshot. -/
theorem c6_witness :
    paginate_issue_comments (fun _ _ => (⟨1, [], [], [], none, [], [], 0, false⟩, ⟨none, none⟩))
        3 ⟨7, [], [], [], none, [], [], 1, false⟩ "d".toList "A".toList =
      .ok (⟨7, [], [], [], none, [], [], 1, false⟩, 0) :=
  c6_untruncated_zero_fetches
    (fun _ _ => (⟨1, [], [], [], none, [], [], 0, false⟩, ⟨none, none⟩))
    3 ⟨7, [], [], [], none, [], [], 1, false⟩ "d".toList "A".toList rfl

/-- Claim C7: with a truncated initial snapshot the paginator scans the
already-fetched comments for the disabled marker (exact, case-sensitive
substring) and the AI marker (case-insensitive substring) and, when both are
found, returns the snapshot at once with zero fetches (part 1).  The page
loop stops as soon as both markers have been found: a loop state whose two
found-flags are already set returns immediately, performing no fetch call at
all (part 2), and an iteration whose freshly fetched page completes the two
flags returns right after that single fetch even though `hasNextPage` may
still report further pages (part 3).  Every normal loop exit is for one of
the claimed reasons: both markers found on the accumulated comments, the
last page reporting `hasNextPage = false`, or a falsy (`None` or empty)
pagination cursor (part 4). -/
theorem c7_early_exit_scan :
    (∀ (fetch : Nat → Option Str → IssueSnapshot × RawPageInfo) (fuel : Nat)
        (snap : IssueSnapshot) (dm am : Str),
        snap.had_truncated = true →
        scanDisabled dm snap.comments = true →
        scanAi am snap.comments = true →
        paginate_issue_comments fetch fuel snap dm am = .ok (snap, 0)) ∧
    (∀ (fetch : Nat → Option Str → IssueSnapshot × RawPageInfo) (fuel : Nat)
        (snap : IssueSnapshot) (dm am : Str) (cursor : Option Str)
        (pageNum calls : Nat),
        paginateLoop fetch fuel snap dm am true true cursor pageNum calls =
          .ok (snap, calls, cursor)) ∧
    (∀ (fetch : Nat → Option Str → IssueSnapshot × RawPageInfo) (fuel : Nat)
        (snap : IssueSnapshot) (dm am : Str) (fd fai : Bool) (c : Char) (cr : Str)
        (pageNum calls : Nat),
        (fd && fai) = false →
        ((fd || scanDisabled dm (fetch 100 (some (c :: cr))).1.comments) &&
          (fai || scanAi am (fetch 100 (some (c :: cr))).1.comments)) = true →
        paginateLoop fetch (fuel + 1) snap dm am fd fai (some (c :: cr)) pageNum calls =
          .ok ({ snap with
              comments := snap.comments ++ (fetch 100 (some (c :: cr))).1.comments,
              fetched_pages := pageNum,
              had_truncated := ((fetch 100 (some (c :: cr))).2).hasNextPage.getD false },
            calls + 1, some (c :: cr))) ∧
    (∀ (fetch : Nat → Option Str → IssueSnapshot × RawPageInfo) (fuel : Nat)
        (snap : IssueSnapshot) (dm am : Str) (fd fai : Bool) (cursor : Option Str)
        (pageNum calls : Nat) (out : IssueSnapshot × Nat × Option Str),
        fd = scanDisabled dm snap.comments →
        fai = scanAi am snap.comments →
        paginateLoop fetch fuel snap dm am fd fai cursor pageNum calls = .ok out →
        ((scanDisabled dm out.1.comments = true ∧ scanAi am out.1.comments = true) ∨
          out.1.had_truncated = false ∨ cursorTruthy out.2.2 = false)) := by
  refine ⟨?_, ?_, ?_, ?_⟩
  · intro fetch fuel snap dm am h hd hai
    simp [paginate_issue_comments, h, hd, hai]
  · intro fetch fuel snap dm am cursor pageNum calls
    rcases cursor with _ | (_ | ⟨c, cr⟩) <;> cases fuel <;> simp [paginateLoop]
  · intro fetch fuel snap dm am fd fai c cr pageNum calls hb hb2
    simp only [paginateLoop]
    rw [if_neg (by simp [hb]), if_pos hb2]
  · intro fetch fuel snap dm am fd fai cursor pageNum calls out hfd hfai hstep
    induction fuel generalizing snap fd fai cursor pageNum calls with
    | zero =>
      rcases cursor with _ | (_ | ⟨c, cr⟩)
      · simp only [paginateLoop] at hstep
        cases hstep
        right; right; rfl
      · simp only [paginateLoop] at hstep
        cases hstep
        right; right; rfl
      · simp only [paginateLoop] at hstep
        by_cases hb : (fd && fai) = true
        · rw [if_pos hb] at hstep
          cases hstep
          obtain ⟨hfd', hfai'⟩ := Bool.and_eq_true_iff.mp hb
          left
          exact ⟨hfd ▸ hfd', hfai ▸ hfai'⟩
        · rw [if_neg hb] at hstep
          cases hstep
    | succ fuel ih =>
      rcases cursor with _ | (_ | ⟨c, cr⟩)
      · simp only [paginateLoop] at hstep
        cases hstep
        right; right; rfl
      · simp only [paginateLoop] at hstep
        cases hstep
        right; right; rfl
      · simp only [paginateLoop] at hstep
        by_cases hb : (fd && fai) = true
        · rw [if_pos hb] at hstep
          cases hstep
          obtain ⟨hfd', hfai'⟩ := Bool.and_eq_true_iff.mp hb
          left
          exact ⟨hfd ▸ hfd', hfai ▸ hfai'⟩
        · rw [if_neg hb] at hstep
          set next := fetch 100 (some (c :: cr)) with hnext
          by_cases hb2 : ((fd || scanDisabled dm (next.1).comments) &&
              (fai || scanAi am (next.1).comments)) = true
          · rw [if_pos hb2] at hstep
            cases hstep
            obtain ⟨hfd', hfai'⟩ := Bool.and_eq_true_iff.mp hb2
            left
            constructor
            · rw [scanDisabled_append, ← hfd]
              exact hfd'
            · rw [scanAi_append, ← hfai]
              exact hfai'
          · rw [if_neg hb2] at hstep
            by_cases hb3 : (!((next.2).hasNextPage.getD false)) = true
            · rw [if_pos hb3] at hstep
              cases hstep
              right; left
              simp only [Bool.not_eq_true'] at hb3
              exact hb3
            · rw [if_neg hb3] at hstep
              exact ih _ _ _ _ _ _
                (by rw [scanDisabled_append, ← hfd]) (by rw [scanAi_append, ← hfai])
                hstep

/-- Claim C7, witness: part 1 at a snapshot already containing both markers;
part 2 at a live cursor "c", showing the flags-set state returns with the
call count unchanged; part 3 at an oracle whose next page contains both
markers while reporting `hasNextPage = true` and a further cursor — the loop
still returns after that single fetch; part 4 at a run whose oracle reports
`hasNextPage = true` but an empty-string cursor, so the loop exits with the
falsy cursor `some []`. -/
theorem c7_witness :
    paginate_issue_comments (fun _ _ => (⟨1, [], [], [], none, [], [], 0, false⟩, ⟨none, none⟩))
        3 ⟨7, [], [], [], none, [], [⟨[], none, "d xA".toList, none, 0, 0⟩], 1, true⟩
        "d".toList "A".toList =
      .ok (⟨7, [], [], [], none, [], [⟨[], none, "d xA".toList, none, 0, 0⟩], 1, true⟩, 0) ∧
    paginateLoop (fun _ _ => (⟨1, [], [], [], none, [], [], 0, false⟩, ⟨none, none⟩))
        3 ⟨7, [], [], [], none, [], [], 1, true⟩ "d".toList "A".toList
        true true (some "c".toList) 2 1 =
      .ok (⟨7, [], [], [], none, [], [], 1, true⟩, 1, some "c".toList) ∧
    paginateLoop
        (fun _ _ => (⟨1, [], [], [], none, [], [⟨[], none, "d xA".toList, none, 0, 0⟩], 0, false⟩,
          ⟨some true, some "n".toList⟩))
        3 ⟨7, [], [], [], none, [], [], 1, true⟩ "d".toList "A".toList
        false false (some "c".toList) 2 1 =
      .ok (⟨7, [], [], [], none, [], [⟨[], none, "d xA".toList, none, 0, 0⟩], 2, true⟩,
        2, some "c".toList) ∧
    ((scanDisabled "d".toList
          ((⟨7, [], [], [], none, [], [], 2, true⟩ : IssueSnapshot)).comments = true ∧
        scanAi "A".toList
          ((⟨7, [], [], [], none, [], [], 2, true⟩ : IssueSnapshot)).comments = true) ∨
      ((⟨7, [], [], [], none, [], [], 2, true⟩ : IssueSnapshot)).had_truncated = false ∨
      cursorTruthy ((⟨7, [], [], [], none, [], [], 2, true⟩ : IssueSnapshot), 2,
        (some [] : Option Str)).2.2 = false) :=
  ⟨c7_early_exit_scan.1 (fun _ _ => (⟨1, [], [], [], none, [], [], 0, false⟩, ⟨none, none⟩))
      3 ⟨7, [], [], [], none, [], [⟨[], none, "d xA".toList, none, 0, 0⟩], 1, true⟩
      "d".toList "A".toList rfl (by decide) (by decide),
   c7_early_exit_scan.2.1 (fun _ _ => (⟨1, [], [], [], none, [], [], 0, false⟩, ⟨none, none⟩))
      3 ⟨7, [], [], [], none, [], [], 1, true⟩ "d".toList "A".toList
      (some "c".toList) 2 1,
   c7_early_exit_scan.2.2.1
      (fun _ _ => (⟨1, [], [], [], none, [], [⟨[], none, "d xA".toList, none, 0, 0⟩], 0, false⟩,
        ⟨some true, some "n".toList⟩))
      2 ⟨7, [], [], [], none, [], [], 1, true⟩ "d".toList "A".toList
      false false 'c' [] 2 1 rfl (by decide),
   c7_early_exit_scan.2.2.2
      (fun _ _ => (⟨1, [], [], [], none, [], [], 0, false⟩, ⟨some true, some []⟩))
      3 ⟨7, [], [], [], none, [], [], 1, true⟩ "d".toList "A".toList
      false false (some "c".toList) 2 1
      (⟨7, [], [], [], none, [], [], 2, true⟩, 2, some [])
      rfl rfl rfl⟩

/-- Claim C8: a comment node whose `createdAt` or `updatedAt` string fails to
parse gets *both* timestamps replaced by the current time, and the fetch
still succeeds — for any response whose repository and issue are present the
parse returns a snapshot, the fallback comment included. -/
theorem c8_timestamp_fallback :
    (∀ (parseIso : Str → Option Time) (now : Time) (node : RawComment),
        (parseIso (replaceZ (node.createdAt.getD [])) = none ∨
          parseIso (replaceZ (node.updatedAt.getD [])) = none) →
        (parseCommentNode parseIso now node).created_at = now ∧
          (parseCommentNode parseIso now node).updated_at = now) ∧
    (∀ (parseIso : Str → Option Time) (now : Time) (after : Option Str)
        (issue : RawIssue) (node : RawComment),
        some node ∈ (issue.comments.getD ⟨⟨none, none⟩, []⟩).nodes →
        ∃ snap pinfo, graphql_parse_issue parseIso now after ⟨some ⟨some issue⟩⟩ =
            .ok (snap, pinfo) ∧
          parseCommentNode parseIso now node ∈ snap.comments) := by
  constructor
  · intro parseIso now node h
    cases hc : parseIso (replaceZ (node.createdAt.getD [])) with
    | none => exact ⟨by simp [parseCommentNode, hc], by simp [parseCommentNode, hc]⟩
    | some c =>
      cases hu : parseIso (replaceZ (node.updatedAt.getD [])) with
      | none => exact ⟨by simp [parseCommentNode, hc, hu], by simp [parseCommentNode, hc, hu]⟩
      | some u =>
        rcases h with h | h
        · rw [hc] at h; cases h
        · rw [hu] at h; cases h
  · intro parseIso now after issue node hmem
    refine ⟨_, _, rfl, ?_⟩
    exact List.mem_filterMap.mpr ⟨some node, hmem, rfl⟩

/-- Claim C8, witness: both parts discharged on a concrete unparseable
node. -/
theorem c8_witness :
    ((parseCommentNode (fun _ => none) 99 ⟨none, none, none, none, some "bad".toList, none⟩).created_at = 99 ∧
      (parseCommentNode (fun _ => none) 99 ⟨none, none, none, none, some "bad".toList, none⟩).updated_at = 99) ∧
    (∃ snap pinfo,
      graphql_parse_issue (fun _ => none) 99 none
          ⟨some ⟨some ⟨5, none, none, none, none, none,
            some ⟨⟨none, none⟩, [some ⟨none, none, none, none, some "bad".toList, none⟩]⟩⟩⟩⟩ =
        .ok (snap, pinfo) ∧
      parseCommentNode (fun _ => none) 99 ⟨none, none, none, none, some "bad".toList, none⟩
        ∈ snap.comments) :=
  ⟨c8_timestamp_fallback.1 (fun _ => none) 99 ⟨none, none, none, none, some "bad".toList, none⟩
      (Or.inl rfl),
   c8_timestamp_fallback.2 (fun _ => none) 99 none
      ⟨5, none, none, none, none, none,
        some ⟨⟨none, none⟩, [some ⟨none, none, none, none, some "bad".toList, none⟩]⟩⟩
      ⟨none, none, none, none, some "bad".toList, none⟩ (by simp)⟩

end RepoAgent
